import Mathlib

/-!
Verification of the EightBall language front-end (src/eightball.c) against its
natural-language specification.

The development below is a shallow embedding of the interpreter/compiler core:
the C globals become fields of an explicit state record `St`, every embedded C
function becomes a Lean function on `St`, `longjmp(jumpbuf, 1)` becomes the
`Res.jump` outcome, and paths that leave the embedded fragment (for example
raw-memory dereferences, file I/O, or the recursive function-call machinery)
are marked by the explicit `Res.unsup` outcome so that no theorem can silently
rely on them.  C `int` values are modelled by `Int` (the reference build is
gcc, 32-bit int); `unsigned char` storage is wrapped with `Int.emod _ 256`
where the C code stores through an `unsigned char` lvalue.  The embedding is
translated from eightball.c; the few externals that live outside src/
(console printing primitives, the VM opcode enumeration) are modelled from the
specification and are marked as such in their doc comments.
-/

namespace EightBall

/-- The NUL terminator character of C strings. -/
def nulc : Char := Char.ofNat 0

/-- The single-quote character (used as the comment token and for character
literals). -/
def qc : Char := Char.ofNat 39

/-- Reading a character of a line buffer, as C does through `txtPtr`: past the
end of the stored text the NUL terminator is read. -/
def ch (l : List Char) (i : Nat) : Char := l.getD i nulc

/-- Macro isalphach from eightball.c. -/
def isalphach (c : Char) : Bool :=
  (('a' ≤ c && c ≤ 'z') || ('A' ≤ c && c ≤ 'Z'))

/-- Macro isdigitch from eightball.c. -/
def isdigitch (c : Char) : Bool := ('0' ≤ c && c ≤ '9')

/-- C strncmp equality: compares up to n characters, stopping early at a
mismatch or at a NUL in the first argument position reached by both. -/
def cstrncmpeq : List Char → List Char → Nat → Bool
  | _, _, 0 => true
  | a, b, n + 1 =>
    let c1 := a.headD nulc
    let c2 := b.headD nulc
    if c1 ≠ c2 then false
    else if c1 = nulc then true
    else cstrncmpeq a.tail b.tail n

/-- First VARNUMCHARS characters of a variable name are significant. -/
def VARNUMCHARS : Nat := 4

/-- First SUBRNUMCHARS characters of a subroutine name are significant. -/
def SUBRNUMCHARS : Nat := 8

/-- Size of the expression stacks (STACKSZ). -/
def STACKSZ : Nat := 16

/-- Size of the return stack (RETSTACKSZ). -/
def RETSTACKSZ : Nat := 64

/-- The 4-character key under which a parsed identifier is stored: the first
VARNUMCHARS characters, NUL padded (mirrors the name buffers filled by
strncpy / the parsing loops of eightball.c). -/
def keyOf (lexeme : List Char) : List Char :=
  (lexeme ++ List.replicate VARNUMCHARS nulc).take VARNUMCHARS

/-- Error codes of eightball.c. -/
def ERR_NOIF : Nat := 101

def ERR_NOFOR : Nat := 102

def ERR_NOWHILE : Nat := 103

def ERR_NOSUB : Nat := 104

def ERR_STACK : Nat := 105

def ERR_COMPLEX : Nat := 106

def ERR_VAR : Nat := 107

def ERR_REDEF : Nat := 108

def ERR_EXPECT : Nat := 109

def ERR_EXTRA : Nat := 110

def ERR_DIM : Nat := 111

def ERR_SUBSCR : Nat := 112

def ERR_RUNSUB : Nat := 113

def ERR_STR : Nat := 114

def ERR_FILE : Nat := 115

def ERR_LINE : Nat := 116

def ERR_EXPR : Nat := 117

def ERR_NUM : Nat := 118

def ERR_ARG : Nat := 119

def ERR_TYPE : Nat := 120

def ERR_DIVZERO : Nat := 121

def ERR_VALUE : Nat := 122

def ERR_CONST : Nat := 123

def ERR_STCONST : Nat := 124

def ERR_TOOLONG : Nat := 125

def ERR_LINK : Nat := 126

/-- The errmsgs table of eightball.c (indexed by errcode - ERR_FIRST). -/
def errmsgs : List (List Char) :=
  ["no if".data, "no for".data, "no while".data, "no sub".data, "stack".data,
   "complex".data, "expect var".data, "redef".data, "expected ".data,
   "extra".data, "bad dim".data, "bad idx".data, "ran into sub".data,
   "bad str".data, "file".data, "bad line#".data, "bad expr".data,
   "bad num".data, "arg".data, "type".data, "div/0".data, "bad val".data,
   "not const".data, "const".data, "too long".data, "link".data]

/-- Modelled from the spec: the opcode identifiers of the companion stack VM.
The enumeration itself lives in eightballvm.h, which is not part of src/; the
spec (section 6, VM contract) lists the opcode set.  Only the identity of each
opcode matters to the front-end, so they are constructors with no payload. -/
inductive Bytecode where
  | VM_LDIMM | VM_NEG | VM_ADD | VM_SUB | VM_MUL | VM_DIV | VM_MOD
  | VM_INC | VM_DEC
  | VM_BITAND | VM_BITOR | VM_BITXOR | VM_BITNOT | VM_LSH | VM_RSH
  | VM_NOT | VM_AND | VM_OR
  | VM_EQL | VM_NEQL | VM_LT | VM_LTE | VM_GT | VM_GTE
  | VM_LDAWORD | VM_LDABYTE | VM_LDRWORD | VM_LDRBYTE
  | VM_LDAWORDIMM | VM_LDABYTEIMM | VM_LDRWORDIMM | VM_LDRBYTEIMM
  | VM_STAWORD | VM_STABYTE | VM_STRWORD | VM_STRBYTE
  | VM_STAWORDIMM | VM_STABYTEIMM | VM_STRWORDIMM | VM_STRBYTEIMM
  | VM_PSHWORD | VM_PSHBYTE | VM_POPWORD | VM_POPBYTE
  | VM_DUP | VM_DROP | VM_SWAP | VM_SPTOFP | VM_FPTOSP | VM_RTOA | VM_DISCARD
  | VM_PRDEC | VM_PRHEX | VM_PRCH | VM_PRSTR | VM_PRMSG
  | VM_KBDCH | VM_KBDLN
  | VM_BRNCHIMM | VM_JMPIMM | VM_JSRIMM | VM_RTS | VM_END
deriving DecidableEq

/-- One item written by the bytecode emitter: an opcode byte (emit), an opcode
with a 16-bit immediate operand (emit_imm), an inline message (emitprmsg), or
an in-place rewrite of a previously emitted immediate (emit_fixup). -/
inductive EOp where
  | op : Bytecode → EOp
  | imm : Bytecode → Int → EOp
  | msg : List Char → EOp
  | fixup : Int → Int → EOp
deriving DecidableEq

/-- An entry of the variable table (struct vartabent plus its payload).
The heap payload that follows the struct in C is modelled by explicit fields:
`val` is the scalar payload word (the value when interpreting, the VM address
when compiling, the constant value for consts), `body`/`asize` are the array
payload and element count, and `bodyAddr` is the stored pointer-to-payload
word.  `addr` is the abstract address handle of the entry's own scalar slot
(what `&x` evaluates to in the interpreter); addresses are abstract tokens
handed out by a bump allocator in the state. -/
structure Var where
  vname : List Char
  typeByte : Nat
  addr : Int
  val : Int
  bodyAddr : Int
  body : List Int
  asize : Int
deriving DecidableEq

/-- The interpreter/compiler state: the globals of eightball.c.
The return stack is the list of occupied slots, newest first, so that
`return_stack[returnSP + k]` is element `k - 1` of `rs` and
`returnSP = RETSTACKSZ - 1 - rs.length`; the expression stacks are modelled
the same way.  `txtPos` is `txtPtr` as an index into `lnbuf`.  `current` is
the index of the current program line.  `output` collects every character
printed.  `errs` collects every reported error code. -/
structure St where
  lnbuf : List Char
  txtPos : Nat
  readbuf : List Char
  vars : List Var
  varslocalIdx : Option Nat
  nextAddr : Int
  calllevel : Int
  rs : List Int
  skipFlag : Bool
  counter : Int
  current : Option Nat
  program : List (List Char)
  output : List Char
  errs : List Nat
  retregister : Int
  compile : Bool
  compilingsub : Bool
  onlyconstants : Bool
  compiletimelookup : Bool
  opndStack : List Int
  oprStack : List Nat
  emitted : List EOp
  rtPC : Int
  rtSP : Int
  rtFP : Int
  rtPCBeforeEval : Int
  editmode : Nat
  interrupted : Bool
deriving DecidableEq

/-- Outcome of an embedded C function that returns a value of type α while
possibly mutating the state: a normal return, a `longjmp(jumpbuf, 1)` back to
the warm-start point in main, or departure from the embedded fragment. -/
inductive Res (α : Type) where
  | ok : α → St → Res α
  | jump : St → Res α
  | unsup : Res α
deriving DecidableEq

/-- Modelled from the spec: `print` of eightballutils (not under src/) writes
a string to the console. -/
def prout (s : List Char) (st : St) : St := { st with output := st.output ++ s }

/-- Modelled from the spec: `printchar` of eightballutils (not under src/)
writes one character to the console; its C argument is converted to char. -/
def printchar (c : Char) (st : St) : St := { st with output := st.output ++ [c] }

/-- Modelled from the spec: `printdec` of eightballutils (not under src/)
prints a number in decimal; only applied to nonnegative values here. -/
def printdec (v : Int) (st : St) : St :=
  { st with output := st.output ++ (Nat.repr v.toNat).data }

/-- The error reporting function: prints a question mark and the mnemonic, and
(in this model) records the error code. -/
def error (errcode : Nat) (st : St) : St :=
  { st with
    errs := st.errs ++ [errcode],
    output := st.output ++ ['?'] ++ (errmsgs.getD (errcode - ERR_NOIF) []) }

/-- Storing through an `unsigned char` lvalue truncates to a byte. -/
def cByte (v : Int) : Int := Int.emod v 256

/-- The _pow helper of eightball.c: iterates `ret *= x` y times, so a negative
exponent yields 1, exactly as `Int.toNat` does. -/
def cpow (x y : Int) : Int := x ^ y.toNat

/-- C truncated division (toward zero), the semantics of `/` on int. -/
def cdiv (a b : Int) : Int := Int.tdiv a b

/-- C remainder paired with truncated division, the semantics of `%` on int. -/
def cmod (a b : Int) : Int := Int.tmod a b

/-- Left shift of a C int (no overflow modelled; claims do not exercise it). -/
def clsh (a b : Int) : Int := a * 2 ^ b.toNat

/-- Arithmetic right shift of a C int (gcc semantics: floor division). -/
def crsh (a b : Int) : Int := Int.fdiv a (2 ^ b.toNat)

/-- C truth value of an int. -/
def cbool (v : Int) : Bool := v ≠ 0

/-- An int holding a C truth value. -/
def bint (b : Bool) : Int := if b then 1 else 0

/-! Expression-parser tokens (GNU build variants of the tables). -/

/-- Single character binary operator characters, in token order. -/
def binaryops : List Char := "^/%*+-><&|!".data

/-- First characters of the two character binary operators. -/
def binaryops1 : List Char := "=!><&|<>".data

/-- Second characters of the two character binary operators. -/
def binaryops2 : List Char := "====&|<>".data

/-- Unary operator characters, in token order. -/
def unaryops : List Char := "-+!~*^".data

def TOK_POW : Nat := 245

def TOK_DIV : Nat := 246

def TOK_MOD : Nat := 247

def TOK_MUL : Nat := 248

def TOK_ADD : Nat := 249

def TOK_SUB : Nat := 250

def TOK_GT : Nat := 251

def TOK_LT : Nat := 252

def TOK_BITAND : Nat := 253

def TOK_BITOR : Nat := 254

def TOK_BITXOR : Nat := 255

def TOK_EQL : Nat := 237

def TOK_NEQL : Nat := 238

def TOK_GTE : Nat := 239

def TOK_LTE : Nat := 240

def TOK_AND : Nat := 241

def TOK_OR : Nat := 242

def TOK_LSH : Nat := 243

def TOK_RSH : Nat := 244

def TOK_UNM : Nat := 231

def TOK_UNP : Nat := 232

def TOK_NOT : Nat := 233

def TOK_BITNOT : Nat := 234

def TOK_STAR : Nat := 235

def TOK_CARET : Nat := 236

/-- Macro IS1CHBINARY. -/
def IS1CHBINARY (tok : Nat) : Bool := TOK_POW ≤ tok && tok ≤ TOK_BITXOR

/-- Macro IS2CHBINARY. -/
def IS2CHBINARY (tok : Nat) : Bool := TOK_EQL ≤ tok && tok ≤ TOK_RSH

/-- Macro ISUNARY. -/
def ISUNARY (tok : Nat) : Bool := TOK_UNM ≤ tok && tok ≤ TOK_CARET

/-- Token marking the base of the operator stack. -/
def SENTINEL : Nat := 50

/-- Token for an illegal operator or statement. -/
def ILLEGAL : Nat := 100

/-- Magic return-stack frame tags (values of C int 0xfffe .. 0xfffa). -/
def CALLFRAME : Int := 0xfffe

def IFFRAME : Int := 0xfffd

def FORFRAME_B : Int := 0xfffc

def FORFRAME_W : Int := 0xfffb

def WHILEFRAME : Int := 0xfffa

/-- The getprecedence function of eightball.c; `none` models the
should-never-happen EXIT(99) default branch. -/
def getprecedence (token : Nat) : Option Nat :=
  if token = TOK_UNP ∨ token = TOK_UNM ∨ token = TOK_STAR ∨
     token = TOK_CARET ∨ token = TOK_NOT ∨ token = TOK_BITNOT then some 11
  else if token = TOK_POW ∨ token = TOK_DIV ∨ token = TOK_MUL ∨
          token = TOK_MOD then some 10
  else if token = TOK_ADD ∨ token = TOK_SUB then some 9
  else if token = TOK_LSH ∨ token = TOK_RSH then some 8
  else if token = TOK_GT ∨ token = TOK_GTE ∨ token = TOK_LT ∨
          token = TOK_LTE then some 7
  else if token = TOK_EQL ∨ token = TOK_NEQL then some 6
  else if token = TOK_BITAND then some 5
  else if token = TOK_BITXOR then some 4
  else if token = TOK_BITOR then some 3
  else if token = TOK_AND then some 2
  else if token = TOK_OR then some 1
  else if token = SENTINEL then some 0
  else none

/-! The four stacks.  Like the C arrays they have one slot that cannot be
used: a push that would fill the final slot reports the overflow and
long-jumps, so at most STACKSZ - 1 (resp. RETSTACKSZ - 1) values are live. -/

/-- push_operator_stack: overflow reports ERR_COMPLEX and long-jumps. -/
def push_operator_stack (opr : Nat) (st : St) : Res Nat :=
  if st.oprStack.length = STACKSZ - 1 then .jump (error ERR_COMPLEX st)
  else .ok 0 { st with oprStack := opr :: st.oprStack }

/-- pop_operator_stack: underflow long-jumps (without reporting). -/
def pop_operator_stack (st : St) : Res Nat :=
  match st.oprStack with
  | [] => .jump st
  | t :: rest => .ok t { st with oprStack := rest }

/-- Macro top_operator_stack; `none` models the out-of-bounds read of an
empty stack, which legal expression flows never perform. -/
def top_operator_stack (st : St) : Option Nat := st.oprStack.head?

/-- push_operand_stack: in compile mode the value is emitted as a
load-immediate instead; overflow reports ERR_COMPLEX and long-jumps. -/
def push_operand_stack (v : Int) (st : St) : Res Nat :=
  if st.compile then
    .ok 0 { st with emitted := st.emitted ++ [.imm .VM_LDIMM v],
                    rtPC := st.rtPC + 3 }
  else if st.opndStack.length = STACKSZ - 1 then .jump (error ERR_COMPLEX st)
  else .ok 0 { st with opndStack := v :: st.opndStack }

/-- pop_operand_stack: in compile mode returns 0 without touching the stack;
underflow long-jumps. -/
def pop_operand_stack (st : St) : Res Int :=
  if st.compile then .ok 0 st
  else
    match st.opndStack with
    | [] => .jump st
    | v :: rest => .ok v { st with opndStack := rest }

/-- push_return: overflow reports ERR_STACK and long-jumps (the write into
the final slot is never readable, so it is not modelled). -/
def push_return (v : Int) (st : St) : Res Nat :=
  if st.rs.length = RETSTACKSZ - 1 then .jump (error ERR_STACK st)
  else .ok 0 { st with rs := v :: st.rs }

/-- pop_return: underflow reports ERR_STACK and long-jumps. -/
def pop_return (st : St) : Res Int :=
  match st.rs with
  | [] => .jump (error ERR_STACK st)
  | v :: rest => .ok v { st with rs := rest }

/-! The bytecode emitter. -/

/-- emit: one opcode byte. -/
def emit (code : Bytecode) (st : St) : St :=
  { st with emitted := st.emitted ++ [.op code], rtPC := st.rtPC + 1 }

/-- emit_imm: opcode byte plus 16-bit immediate operand. -/
def emit_imm (code : Bytecode) (word : Int) (st : St) : St :=
  { st with emitted := st.emitted ++ [.imm code word], rtPC := st.rtPC + 3 }

/-- Macro emitldi. -/
def emitldi (v : Int) (st : St) : St := emit_imm .VM_LDIMM v st

/-- emit_fixup: rewrite the 16-bit immediate previously emitted at the given
address; rtPC is unaffected. -/
def emit_fixup (address word : Int) (st : St) : St :=
  { st with emitted := st.emitted ++ [.fixup address word] }

/-- emitprmsg: VM_PRMSG opcode followed by the message in readbuf. -/
def emitprmsg (st : St) : St :=
  { st with emitted := st.emitted ++ [.msg st.readbuf],
            rtPC := st.rtPC + 2 + Int.ofNat st.readbuf.length }

/-! Scanners over the operator tables. -/

/-- Scan a single-character operator table for the character, returning
sequential tokens starting at the given one. -/
def scan1 : List Char → Nat → Char → Nat
  | [], _, _ => ILLEGAL
  | c :: rest, tok, target =>
    if c = target then tok else scan1 rest (tok + 1) target

/-- Scan the paired two-character operator tables. -/
def scan2 : List Char → List Char → Nat → Char → Char → Nat
  | c1 :: r1, c2 :: r2, tok, t1, t2 =>
    if c1 = t1 ∧ c2 = t2 then tok else scan2 r1 r2 (tok + 1) t1 t2
  | _, _, _, _, _ => ILLEGAL

/-- The binary() token scanner: two-character operators are tried first
(unless the cursor is at the terminator), then single-character ones. -/
def binary (st : St) : Nat :=
  let c0 := ch st.lnbuf st.txtPos
  let c1 := ch st.lnbuf (st.txtPos + 1)
  if c0 ≠ nulc then
    let t2 := scan2 binaryops1 binaryops2 TOK_EQL c0 c1
    if t2 ≠ ILLEGAL then t2 else scan1 binaryops TOK_POW c0
  else scan1 binaryops TOK_POW c0

/-- The unary() token scanner. -/
def unary (st : St) : Nat := scan1 unaryops TOK_UNM (ch st.lnbuf st.txtPos)

/-- pop_operator: pop an operator token and its operand(s) and either compute
(interpret) or emit the corresponding VM opcode (compile).  The word and byte
dereference operators read raw memory in the interpreter, which is outside
this embedding, hence Res.unsup on those two interpret paths; the EXIT(99)
default branches are likewise Res.unsup. -/
def pop_operator (st : St) : Res Nat :=
  match pop_operator_stack st with
  | .jump s => .jump s
  | .unsup => .unsup
  | .ok token st1 =>
    match pop_operand_stack st1 with
    | .jump s => .jump s
    | .unsup => .unsup
    | .ok operand1 st2 =>
      if ¬ ISUNARY token then
        match pop_operand_stack st2 with
        | .jump s => .jump s
        | .unsup => .unsup
        | .ok operand2 st3 =>
          if token = TOK_POW then
            push_operand_stack (cpow operand2 operand1) st3
          else if token = TOK_MUL then
            if st3.compile then .ok 0 (emit .VM_MUL st3)
            else push_operand_stack (operand2 * operand1) st3
          else if token = TOK_DIV then
            if st3.compile then .ok 0 (emit .VM_DIV st3)
            else if operand1 = 0 then .ok 1 (error ERR_DIVZERO st3)
            else push_operand_stack (cdiv operand2 operand1) st3
          else if token = TOK_MOD then
            if st3.compile then .ok 0 (emit .VM_MOD st3)
            else if operand1 = 0 then .ok 1 (error ERR_DIVZERO st3)
            else push_operand_stack (cmod operand2 operand1) st3
          else if token = TOK_ADD then
            if st3.compile then .ok 0 (emit .VM_ADD st3)
            else push_operand_stack (operand2 + operand1) st3
          else if token = TOK_SUB then
            if st3.compile then .ok 0 (emit .VM_SUB st3)
            else push_operand_stack (operand2 - operand1) st3
          else if token = TOK_GT then
            if st3.compile then .ok 0 (emit .VM_GT st3)
            else push_operand_stack (bint (operand2 > operand1)) st3
          else if token = TOK_GTE then
            if st3.compile then .ok 0 (emit .VM_GTE st3)
            else push_operand_stack (bint (operand2 ≥ operand1)) st3
          else if token = TOK_LT then
            if st3.compile then .ok 0 (emit .VM_LT st3)
            else push_operand_stack (bint (operand2 < operand1)) st3
          else if token = TOK_LTE then
            if st3.compile then .ok 0 (emit .VM_LTE st3)
            else push_operand_stack (bint (operand2 ≤ operand1)) st3
          else if token = TOK_EQL then
            if st3.compile then .ok 0 (emit .VM_EQL st3)
            else push_operand_stack (bint (operand2 = operand1)) st3
          else if token = TOK_NEQL then
            if st3.compile then .ok 0 (emit .VM_NEQL st3)
            else push_operand_stack (bint (operand2 ≠ operand1)) st3
          else if token = TOK_AND then
            if st3.compile then .ok 0 (emit .VM_AND st3)
            else push_operand_stack (bint (cbool operand2 && cbool operand1)) st3
          else if token = TOK_OR then
            if st3.compile then .ok 0 (emit .VM_OR st3)
            else push_operand_stack (bint (cbool operand2 || cbool operand1)) st3
          else if token = TOK_BITAND then
            if st3.compile then .ok 0 (emit .VM_BITAND st3)
            else push_operand_stack (Int.land operand2 operand1) st3
          else if token = TOK_BITOR then
            if st3.compile then .ok 0 (emit .VM_BITOR st3)
            else push_operand_stack (Int.lor operand2 operand1) st3
          else if token = TOK_BITXOR then
            if st3.compile then .ok 0 (emit .VM_BITXOR st3)
            else push_operand_stack (Int.xor operand2 operand1) st3
          else if token = TOK_LSH then
            if st3.compile then .ok 0 (emit .VM_LSH st3)
            else push_operand_stack (clsh operand2 operand1) st3
          else if token = TOK_RSH then
            if st3.compile then .ok 0 (emit .VM_RSH st3)
            else push_operand_stack (crsh operand2 operand1) st3
          else .unsup
      else
        if token = TOK_UNM then
          if st2.compile then .ok 0 (emit .VM_NEG st2)
          else push_operand_stack (-operand1) st2
        else if token = TOK_UNP then
          if st2.compile then .ok 0 st2
          else push_operand_stack operand1 st2
        else if token = TOK_NOT then
          if st2.compile then .ok 0 (emit .VM_NOT st2)
          else push_operand_stack (bint (operand1 = 0)) st2
        else if token = TOK_BITNOT then
          if st2.compile then .ok 0 (emit .VM_BITNOT st2)
          else push_operand_stack (-1 - operand1) st2
        else if token = TOK_STAR then
          if st2.compile then .ok 0 (emit .VM_LDAWORD st2)
          else .unsup
        else if token = TOK_CARET then
          if st2.compile then .ok 0 (emit .VM_LDABYTE st2)
          else .unsup
        else .unsup

/-- push_operator: drain the operator stack of everything of precedence at
least that of the incoming token, then push it.  Fuelled: the drain loop pops
one operator per turn. -/
def push_operatorF : Nat → Nat → St → Res Nat
  | 0, _, _ => .unsup
  | fuel + 1, tok, st =>
    match top_operator_stack st with
    | none => .unsup
    | some top =>
      match getprecedence top, getprecedence tok with
      | some pt, some pk =>
        if pt ≥ pk then
          match pop_operator st with
          | .jump s => .jump s
          | .unsup => .unsup
          | .ok c st1 => if c ≠ 0 then .ok 1 st1 else push_operatorF fuel tok st1
        else push_operator_stack tok st
      | _, _ => .unsup

/-! Cursor movement over the line buffer. -/

theorem lt_length_of_ch_ne_nulc {l : List Char} {i : Nat} (h : ch l i ≠ nulc) :
    i < l.length := by
  by_contra hcon
  push_neg at hcon
  apply h
  simp [ch, List.getD, List.getElem?_eq_none hcon]

/-- The loop of the eatspace() macro: fuelled structural recursion (a space
at the cursor implies the cursor is inside the stored text, so fuel
l.length + 1 - i never runs out; the zero-fuel fallback is unreachable and
agrees with the loop exit). -/
def eatspacePosAux : Nat → List Char → Nat → Nat
  | 0, _, i => i
  | n + 1, l, i => if ch l i = ' ' then eatspacePosAux n l (i + 1) else i

/-- The eatspace() macro, as a function from a cursor position to the first
following position that does not hold a space. -/
def eatspacePos (l : List Char) (i : Nat) : Nat :=
  eatspacePosAux (l.length + 1 - i) l i

/-- The eatspace() macro acting on the state. -/
def eatspace (st : St) : St := { st with txtPos := eatspacePos st.lnbuf st.txtPos }

theorem eatspacePosAux_ge (n : Nat) (l : List Char) (i : Nat) :
    i ≤ eatspacePosAux n l i := by
  induction n generalizing i with
  | zero => exact Nat.le_refl i
  | succ n ih =>
    unfold eatspacePosAux
    split
    · exact Nat.le_trans (Nat.le_succ i) (ih (i + 1))
    · exact Nat.le_refl i

theorem eatspacePos_ge (l : List Char) (i : Nat) : i ≤ eatspacePos l i :=
  eatspacePosAux_ge _ l i

/-- The loop of the statement eater used under skipFlag (fuelled; the guard
char not being NUL implies the cursor is inside the text, so the fuel never
runs out). -/
def skipToStmtEndAux : Nat → List Char → Nat → Nat
  | 0, _, i => i
  | n + 1, l, i =>
    if ch l i = nulc ∨ ch l i = ';' then i else skipToStmtEndAux n l (i + 1)

/-- The statement-eating loop of parseline used under skipFlag: advance the
cursor up to the next semicolon or the end of the line. -/
def skipToStmtEnd (l : List Char) (i : Nat) : Nat :=
  skipToStmtEndAux (l.length + 1 - i) l i

/-- The loop of the FULLLINE-argument eater (fuelled). -/
def lineEndPosAux : Nat → List Char → Nat → Nat
  | 0, _, i => i
  | n + 1, l, i => if ch l i = nulc then i else lineEndPosAux n l (i + 1)

/-- Cursor position of the end of the line (the FULLLINE-argument eater). -/
def lineEndPos (l : List Char) (i : Nat) : Nat :=
  lineEndPosAux (l.length + 1 - i) l i

/-- The loop of the semicolon eater at the top of the parseline loop body
(fuelled; a semicolon at the cursor implies the cursor is inside the text). -/
def eatSemisPosAux : Nat → List Char → Nat → Option Nat
  | 0, _, i => some i
  | n + 1, l, i =>
    if ch l i = ';' then
      if ch l (i + 1) = nulc then none
      else eatSemisPosAux n l (eatspacePos l (i + 1))
    else some i

/-- The semicolon-eating loop at the top of the parseline loop body; `none`
models the `return 0` taken when the line ends. -/
def eatSemisPos (l : List Char) (i : Nat) : Option Nat :=
  eatSemisPosAux (l.length + 1 - i) l i

/-- The loop of the identifier-munching code (fuelled). -/
def munchNameAux : Nat → List Char → Nat → List Char × Nat
  | 0, _, i => ([], i)
  | n + 1, l, i =>
    if isalphach (ch l i) || isdigitch (ch l i) then
      let (rest, j) := munchNameAux n l (i + 1)
      (ch l i :: rest, j)
    else ([], i)

/-- The identifier-munching loops: collect the full alphanumeric lexeme at
the cursor and return it with the position just past it. -/
def munchName (l : List Char) (i : Nat) : List Char × Nat :=
  munchNameAux (l.length + 1 - i) l i

/-- The loop of the digit-munching do-while of parseint (fuelled). -/
def munchIntAux : Nat → List Char → Nat → Int → Nat × Int
  | 0, _, i, acc => (i, acc)
  | n + 1, l, i, acc =>
    if isdigitch (ch l i) then
      munchIntAux n l (i + 1) (acc * 10 + (Int.ofNat (ch l i).toNat - 48))
    else (i, acc)

/-- The digit-munching do-while loop of parseint. -/
def munchInt (l : List Char) (i : Nat) (acc : Int) : Nat × Int :=
  munchIntAux (l.length + 1 - i) l i acc

/-- parseint: parse a decimal integer constant, returning (code, value). -/
def parseint (st : St) : (Nat × Int) × St :=
  let c := ch st.lnbuf st.txtPos
  if c = nulc then ((1, 0), st)
  else if ¬ isdigitch c then ((1, 0), st)
  else
    let (j, v) := munchInt st.lnbuf st.txtPos 0
    ((0, v), { st with txtPos := j })

/-- hexchar2val (lowercase hex digits only, as in the source). -/
def hexchar2val (c : Char) : Int :=
  if 'a' ≤ c ∧ c ≤ 'f' then Int.ofNat c.toNat - 97 + 10
  else Int.ofNat c.toNat - 48

/-- Guard of the hex-digit loops of parsehexint. -/
def ishexch (c : Char) : Bool := isdigitch c || ('a' ≤ c && c ≤ 'f')

/-- The loop of the digit-munching do-while of parsehexint (fuelled). -/
def munchHexAux : Nat → List Char → Nat → Int → Nat × Int
  | 0, _, i, acc => (i, acc)
  | n + 1, l, i, acc =>
    if ishexch (ch l i) then
      munchHexAux n l (i + 1) (acc * 16 + hexchar2val (ch l i))
    else (i, acc)

/-- The digit-munching do-while loop of parsehexint. -/
def munchHex (l : List Char) (i : Nat) (acc : Int) : Nat × Int :=
  munchHexAux (l.length + 1 - i) l i acc

/-- parsehexint: parse a hexadecimal integer constant. -/
def parsehexint (st : St) : (Nat × Int) × St :=
  if ¬ ishexch (ch st.lnbuf st.txtPos) then ((1, 0), st)
  else
    let (j, v) := munchHex st.lnbuf st.txtPos 0
    ((0, v), { st with txtPos := j })

/-- expect: consume the given single-character token or report ERR_EXPECT. -/
def expect (tok : Char) (st : St) : Nat × St :=
  if ch st.lnbuf st.txtPos = tok then
    (0, eatspace { st with txtPos := st.txtPos + 1 })
  else (1, printchar tok (error ERR_EXPECT st))

/-! The variable table. -/

def TYPE_CONST : Nat := 0

def TYPE_WORD : Nat := 1

def TYPE_BYTE : Nat := 2

/-- Predicate of the variable-name comparisons (strncmp on VARNUMCHARS). -/
def varNameEq (key : List Char) (v : Var) : Bool :=
  cstrncmpeq key v.vname VARNUMCHARS

/-- findintvar: search locals (the entries from the varslocal marker on),
then, unless the local flag was set on entry, the globals (the entries up to
the first call-frame marker).  The returned flag tells local (true) from
global (false) provenance. -/
def findintvar (st : St) (key : List Char) (localIn : Bool) :
    Option (Var × Bool) :=
  let locals := match st.varslocalIdx with
    | some i => st.vars.drop i
    | none => []
  match locals.find? (varNameEq key) with
  | some v => some (v, true)
  | none =>
    if localIn then none
    else
      match (st.vars.takeWhile (fun v => v.vname.headD nulc ≠ '-')).find?
          (varNameEq key) with
      | some v => some (v, false)
      | none => none

/-- clearvars: dump the variable heap. -/
def clearvars (st : St) : St :=
  { st with vars := [], varslocalIdx := none }

/-- Replace a variable in the table (the model of storing through a pointer
into the table found by findintvar; entries are identified by their abstract
address handle, which the allocator keeps distinct). -/
def updateVar (st : St) (v : Var) (v2 : Var) : St :=
  { st with vars := st.vars.map (fun w => if w.addr = v.addr then v2 else w) }

/-- Helper siv_st_abs. -/
def siv_st_abs (ty : Nat) (st : St) : St :=
  emit (if ty = TYPE_WORD then .VM_STAWORD else .VM_STABYTE) st

/-- Helper siv_st_rel. -/
def siv_st_rel (ty : Nat) (st : St) : St :=
  emit (if ty = TYPE_WORD then .VM_STRWORD else .VM_STRBYTE) st

/-- Helper siv_st_abs_imm. -/
def siv_st_abs_imm (addr : Int) (ty : Nat) (st : St) : St :=
  emit_imm (if ty % 16 = TYPE_WORD then .VM_STAWORDIMM else .VM_STABYTEIMM) addr st

/-- Helper siv_st_rel_imm. -/
def siv_st_rel_imm (addr : Int) (ty : Nat) (st : St) : St :=
  emit_imm (if ty % 16 = TYPE_WORD then .VM_STRWORDIMM else .VM_STRBYTEIMM) addr st

/-- Helper giv_ld_abs. -/
def giv_ld_abs (ty : Nat) (st : St) : St :=
  emit (if ty % 16 = TYPE_WORD then .VM_LDAWORD else .VM_LDABYTE) st

/-- Helper giv_ld_rel. -/
def giv_ld_rel (ty : Nat) (st : St) : St :=
  emit (if ty % 16 = TYPE_WORD then .VM_LDRWORD else .VM_LDRBYTE) st

/-- Helper giv_ld_abs_imm. -/
def giv_ld_abs_imm (addr : Int) (ty : Nat) (st : St) : St :=
  emit_imm (if ty % 16 = TYPE_WORD then .VM_LDAWORDIMM else .VM_LDABYTEIMM) addr st

/-- Helper giv_ld_rel_imm. -/
def giv_ld_rel_imm (addr : Int) (ty : Nat) (st : St) : St :=
  emit_imm (if ty % 16 = TYPE_WORD then .VM_LDRWORDIMM else .VM_LDRBYTEIMM) addr st

/-- setintvar: assign to an existing variable (idx = -1 means no subscript was
given).  Translated from eightball.c; the interpreter stores into the table
entry, the compiler emits a store. -/
def setintvar (key : List Char) (idx : Int) (value : Int) (st : St) : Res Nat :=
  match findintvar st key false with
  | none => .ok 1 (error ERR_VAR st)
  | some (v, isLocal) =>
    let isarray : Bool := v.typeByte / 16 % 2 = 1
    let ty := v.typeByte % 16
    if v.typeByte / 32 % 2 = 1 then .ok 1 (error ERR_STCONST st)
    else if ¬ isarray then
      if idx ≠ -1 then .ok 1 (error ERR_SUBSCR st)
      else if st.compile then
        if isLocal ∧ st.compilingsub then .ok 0 (siv_st_rel_imm v.val ty st)
        else .ok 0 (siv_st_abs_imm v.val ty st)
      else
        if ty = TYPE_WORD then .ok 0 (updateVar st v { v with val := value })
        else .ok 0 (updateVar st v { v with val := cByte value })
    else
      if idx = -1 then .ok 1 (error ERR_SUBSCR st)
      else if st.compile then
        let st1 := emit .VM_SWAP st
        let st2 := if ty = TYPE_WORD then emit .VM_LSH (emitldi 1 st1) else st1
        let st3 := emitldi v.bodyAddr st2
        let st4 := if v.asize = -1 then emit .VM_LDRWORD st3 else st3
        let st5 := emit .VM_ADD st4
        if isLocal ∧ st.compilingsub then
          if v.asize = -1 then .ok 0 (siv_st_abs ty st5)
          else .ok 0 (siv_st_rel ty st5)
        else .ok 0 (siv_st_abs ty st5)
      else
        if idx < 0 ∨ idx ≥ v.asize then .ok 1 (error ERR_SUBSCR st)
        else if ty = TYPE_WORD then
          .ok 0 (updateVar st v { v with body := v.body.set idx.toNat value })
        else
          .ok 0 (updateVar st v { v with body := v.body.set idx.toNat (cByte value) })

/-- getintvar: read the value (or the address) of an existing variable,
returning (code, value, typeByte).  Translated from eightball.c.  In compile
mode the value is left on the VM stack by emitted code and the returned value
slot is unused (0). -/
def getintvar (key : List Char) (idx : Int) (address : Bool) (st : St) :
    Res (Nat × Int × Nat) :=
  match findintvar st key false with
  | none => .ok (1, 0, 0) (error ERR_VAR st)
  | some (v, isLocal) =>
    let isarray : Bool := v.typeByte / 16 % 2 = 1
    let ty := v.typeByte
    if st.compiletimelookup then
      .ok (0, v.val, ty) { st with compiletimelookup := false }
    else if ¬ isarray then
      if idx ≠ -1 then .ok (1, 0, ty) (error ERR_SUBSCR st)
      else if st.compile then
        if address then
          let st1 := emitldi v.val st
          let st2 := if isLocal ∧ st.compilingsub then emit .VM_RTOA st1 else st1
          .ok (0, 0, ty) st2
        else if isLocal ∧ st.compilingsub then
          .ok (0, 0, ty) (giv_ld_rel_imm v.val ty st)
        else .ok (0, 0, ty) (giv_ld_abs_imm v.val ty st)
      else
        if address then .ok (0, v.addr, ty) st
        else .ok (0, v.val, ty) st
    else
      let address2 := if idx = -1 then true else address
      let idx2 := if idx = -1 then 0 else idx
      let st0 := if idx = -1 ∧ st.compile then emitldi 0 st else st
      if st0.compile then
        let st1 := if ty % 16 = TYPE_WORD then emit .VM_LSH (emitldi 1 st0) else st0
        let st2 := emitldi v.bodyAddr st1
        let st3 := if v.asize = -1 then emit .VM_LDRWORD st2 else st2
        let st4 := emit .VM_ADD st3
        if ¬ address2 then
          if isLocal ∧ st4.compilingsub then
            if v.asize = -1 then .ok (0, 0, ty) (giv_ld_abs ty st4)
            else .ok (0, 0, ty) (giv_ld_rel ty st4)
          else .ok (0, 0, ty) (giv_ld_abs ty st4)
        else
          if isLocal ∧ st4.compilingsub ∧ v.asize ≠ -1 then
            .ok (0, 0, ty) (emit .VM_RTOA st4)
          else .ok (0, 0, ty) st4
      else
        if idx2 < 0 ∨ idx2 ≥ v.asize then .ok (1, 0, ty) (error ERR_SUBSCR st0)
        else if ty % 16 = TYPE_WORD then
          if address2 then .ok (0, v.bodyAddr + 2 * idx2, ty) st0
          else .ok (0, v.body.getD idx2.toNat 0, ty) st0
        else
          if address2 then .ok (0, v.bodyAddr + idx2, ty) st0
          else .ok (0, v.body.getD idx2.toNat 0, ty) st0

/-! The expression parser: P / E / subscript / eval, fuelled for termination.
Fuel only bounds the recursion depth; every theorem about a concrete run picks
a fuel large enough that it is never exhausted. -/

/-- Opening brace of a list initialiser (the GNU build uses braces). -/
def obraceC : Char := Char.ofNat 123

/-- Closing brace of a list initialiser. -/
def cbraceC : Char := Char.ofNat 125

/-- The second half of the variable path of P(): the real getintvar call, the
constant-only restriction, the interpreter push and the trailing eatspace. -/
def PFvar2 (key : List Char) (idx : Int) (addressmode : Bool) (st : St) :
    Res Nat :=
  match getintvar key idx addressmode st with
  | .jump s => .jump s
  | .unsup => .unsup
  | .ok (code, arg, ty) st2 =>
    if code = 1 then .ok 1 st2
    else if st2.onlyconstants ∧ ¬ (ty / 32 % 2 = 1) then .ok 1 (error ERR_CONST st2)
    else if ¬ st2.compile then
      match push_operand_stack arg st2 with
      | .jump s => .jump s
      | .unsup => .unsup
      | .ok _ st3 => .ok 0 (eatspace st3)
    else .ok 0 (eatspace st2)

/-- The tail of the variable path of P(): in compile mode first peek at the
variable with compiletimelookup set, and if it is a constant push its literal
value (goto skip_var); otherwise fall through to the real lookup. -/
def PFvar (key : List Char) (idx : Int) (addressmode : Bool) (st : St) :
    Res Nat :=
  if st.compile then
    match getintvar key idx addressmode { st with compiletimelookup := true } with
    | .jump s => .jump s
    | .unsup => .unsup
    | .ok (code, arg, ty) st1 =>
      if code = 1 then .ok 1 st1
      else if ty / 32 % 2 = 1 then
        match push_operand_stack arg st1 with
        | .jump s => .jump s
        | .unsup => .unsup
        | .ok _ st2 => .ok 0 (eatspace st2)
      else PFvar2 key idx addressmode st1
  else PFvar2 key idx addressmode st

mutual

/-- P(): parse one predicate (atom).  The function-invocation path re-enters
the whole interpreter through docall()/run() and is outside this embedding
(Res.unsup past its error checks). -/
def PF : Nat → St → Res Nat
  | 0, _ => .unsup
  | fuel + 1, st0 =>
    let st := eatspace st0
    let c := ch st.lnbuf st.txtPos
    if c = nulc then .ok 1 (error ERR_EXPR st)
    else if c = '&' ∨ isalphach c then
      let addressmode := c = '&'
      let st1 := if c = '&' then { st with txtPos := st.txtPos + 1 } else st
      if addressmode ∧ ¬ isalphach (ch st1.lnbuf st1.txtPos) then
        .ok 1 (error ERR_VAR st1)
      else
        let (lex, p2) := munchName st1.lnbuf st1.txtPos
        let key := keyOf lex
        let st2 := { st1 with txtPos := p2, readbuf := lex }
        if ch st2.lnbuf st2.txtPos = '[' then
          match subscriptF fuel st2 with
          | .jump s => .jump s
          | .unsup => .unsup
          | .ok (code, idx) st3 =>
            if code = 1 then .ok 1 (error ERR_SUBSCR st3)
            else PFvar key idx addressmode st3
        else if ch st2.lnbuf st2.txtPos = '(' then
          if st2.onlyconstants then .ok 1 (error ERR_CONST st2)
          else if addressmode then .ok 1 (error ERR_VAR st2)
          else .unsup
        else PFvar key (-1) addressmode st2
    else if isdigitch c then
      let ((code, v), st1) := parseint st
      if code = 1 then .ok 1 (error ERR_NUM st1)
      else
        match push_operand_stack v st1 with
        | .jump s => .jump s
        | .unsup => .unsup
        | .ok _ st2 => .ok 0 (eatspace st2)
    else if c = '$' then
      let ((code, v), st1) := parsehexint { st with txtPos := st.txtPos + 1 }
      if code = 1 then .ok 1 (error ERR_NUM st1)
      else
        match push_operand_stack v st1 with
        | .jump s => .jump s
        | .unsup => .unsup
        | .ok _ st2 => .ok 0 (eatspace st2)
    else if c = qc then
      let arg := Int.ofNat (ch st.lnbuf (st.txtPos + 1)).toNat
      let st1 := { st with txtPos := st.txtPos + 2 }
      if ch st1.lnbuf st1.txtPos ≠ qc then .ok 1 (error ERR_NUM st1)
      else
        match push_operand_stack arg { st1 with txtPos := st1.txtPos + 1 } with
        | .jump s => .jump s
        | .unsup => .unsup
        | .ok _ st2 => .ok 0 (eatspace st2)
    else if c = '(' then
      match push_operator_stack SENTINEL { st with txtPos := st.txtPos + 1 } with
      | .jump s => .jump s
      | .unsup => .unsup
      | .ok _ st1 =>
        match EF fuel st1 with
        | .jump s => .jump s
        | .unsup => .unsup
        | .ok code st2 =>
          if code = 1 then .ok 1 st2
          else
            let (code2, st3) := expect ')' st2
            if code2 = 1 then .ok 1 st3
            else
              match pop_operator_stack st3 with
              | .jump s => .jump s
              | .unsup => .unsup
              | .ok _ st4 => .ok 0 st4
    else
      let u := unary st
      if u ≠ ILLEGAL then
        match push_operator_stack u st with
        | .jump s => .jump s
        | .unsup => .unsup
        | .ok _ st1 => PF fuel { st1 with txtPos := st1.txtPos + 1 }
      else .ok 1 (printchar c (printchar ' ' (error ERR_EXTRA st)))

/-- E(): parse P, then (binary-operator P) pairs, then drain to SENTINEL. -/
def EF : Nat → St → Res Nat
  | 0, _ => .unsup
  | fuel + 1, st =>
    match PF fuel st with
    | .jump s => .jump s
    | .unsup => .unsup
    | .ok code st1 =>
      if code = 1 then .ok 1 st1
      else ELoopF fuel st1

/-- The while loop of E() over binary operators. -/
def ELoopF : Nat → St → Res Nat
  | 0, _ => .unsup
  | fuel + 1, st =>
    let op := binary st
    if op ≠ ILLEGAL then
      match push_operatorF (STACKSZ + 1) op st with
      | .jump s => .jump s
      | .unsup => .unsup
      | .ok code st1 =>
        if code = 1 then .ok 1 st1
        else
          let st2 :=
            if IS1CHBINARY op then { st1 with txtPos := st1.txtPos + 1 }
            else { st1 with txtPos := st1.txtPos + 2 }
          match PF fuel st2 with
          | .jump s => .jump s
          | .unsup => .unsup
          | .ok code2 st3 =>
            if code2 = 1 then .ok 1 st3
            else ELoopF fuel st3
    else EDrainF fuel st

/-- The final drain loop of E(): apply operators until SENTINEL surfaces. -/
def EDrainF : Nat → St → Res Nat
  | 0, _ => .unsup
  | fuel + 1, st =>
    match top_operator_stack st with
    | none => .unsup
    | some top =>
      if top ≠ SENTINEL then
        match pop_operator st with
        | .jump s => .jump s
        | .unsup => .unsup
        | .ok code st1 =>
          if code = 1 then .ok 1 st1
          else EDrainF fuel st1
      else .ok 0 st

/-- subscript(): parse an array subscript in brackets inside a fresh
SENTINEL-floored subexpression; returns (code, index value). -/
def subscriptF : Nat → St → Res (Nat × Int)
  | 0, _ => .unsup
  | fuel + 1, st =>
    match push_operator_stack SENTINEL st with
    | .jump s => .jump s
    | .unsup => .unsup
    | .ok _ st1 =>
      let (code, st2) := expect '[' st1
      if code = 1 then .ok (1, 0) st2
      else
        match evalF fuel 0 st2 with
        | .jump s => .jump s
        | .unsup => .unsup
        | .ok (codeE, v) st3 =>
          if codeE = 1 then .ok (1, v) st3
          else
            let (code2, st4) := expect ']' st3
            if code2 = 1 then .ok (1, v) st4
            else
              match pop_operator_stack st4 with
              | .jump s => .jump s
              | .unsup => .unsup
              | .ok _ st5 => .ok (0, v) st5

/-- eval(): evaluate an expression at the cursor, optionally checking that
nothing but a semicolon or the line end follows; returns (code, value). -/
def evalF : Nat → Nat → St → Res (Nat × Int)
  | 0, _, _ => .unsup
  | fuel + 1, checkNoMore, st0 =>
    let st := eatspace st0
    if ch st.lnbuf st.txtPos = nulc then .ok (1, 0) (error ERR_EXPR st)
    else
      match EF fuel st with
      | .jump s => .jump s
      | .unsup => .unsup
      | .ok code st1 =>
        if code = 1 then .ok (1, 0) st1
        else
          let c := ch st1.lnbuf st1.txtPos
          if checkNoMore = 1 ∧ c ≠ ';' ∧ c ≠ nulc then
            .ok (1, 0)
              (prout (st1.lnbuf.drop st1.txtPos) (printchar ' ' (error ERR_EXTRA st1)))
          else
            match pop_operand_stack st1 with
            | .jump s => .jump s
            | .unsup => .unsup
            | .ok v st2 => .ok (0, v) st2

end

/-! Variable creation. -/

/-- Modelled from the spec: the bottom bound of the VM call stack region
(RTCALLSTACKLIM lives in eightballvm.h, which is not under src/).  Its value
is irrelevant to the claims; only the out-of-memory comparison uses it. -/
def RTCALLSTACKLIM : Int := 0

/-- rt_push_callstack: grow the simulated VM call stack downward, long-jumping
on target-memory exhaustion; returns the new rtSP. -/
def rt_push_callstack (bytes : Int) (st : St) : Res Int :=
  if st.rtSP - bytes < RTCALLSTACKLIM then
    .jump (prout "No tgt mem!\n".data st)
  else
    .ok (st.rtSP - bytes) { st with rtSP := st.rtSP - bytes }

/-- Helper civ_st_rel_word. -/
def civ_st_rel_word (i : Int) (st : St) : St :=
  emit .VM_STRWORD (emitldi (st.rtSP - st.rtFP + 2 * i) st)

/-- Helper civ_st_rel_byte. -/
def civ_st_rel_byte (i : Int) (st : St) : St :=
  emit .VM_STRBYTE (emitldi (st.rtSP - st.rtFP + i) st)

/-- The array-initialiser loop of createintvar in the interpreter: fill the
pre-allocated body slot by slot from the string or list initialiser.  The
returned code is 1 when an initialiser expression failed to evaluate (the C
code returns 1 from createintvar there). -/
def civInterpLoop : Nat → Bool → Bool → Nat → Nat → List Int → St →
    Res (Nat × List Int)
  | 0, _, _, _, _, _, _ => .unsup
  | fuel + 1, strg, tyW, i, n, body, st =>
    if i ≥ n then .ok (0, body) st
    else if strg then
      let c := ch st.lnbuf st.txtPos
      let (val, st1) : Int × St :=
        if c = qc then (0, st)
        else (Int.ofNat c.toNat, { st with txtPos := st.txtPos + 1 })
      civInterpLoop fuel strg tyW (i + 1) n
        (body.set i (if tyW then val else cByte val)) st1
    else
      if ch st.lnbuf st.txtPos = cbraceC then
        civInterpLoop fuel strg tyW (i + 1) n
          (body.set i 0) st
      else
        match evalF fuel 0 st with
        | .jump s => .jump s
        | .unsup => .unsup
        | .ok (code, val) st1 =>
          if code = 1 then .ok (1, body) st1
          else
            let st2 := eatspace st1
            let st3 :=
              if ch st2.lnbuf st2.txtPos = ',' then
                { st2 with txtPos := st2.txtPos + 1 }
              else st2
            let st4 := eatspace st3
            civInterpLoop fuel strg tyW (i + 1) n
              (body.set i (if tyW then val else cByte val)) st4

/-- The array-initialiser loop of createintvar in the compiler: emit a store
per element, stopping early at the closing quote or brace. -/
def civCompileLoop : Nat → Bool → Bool → Nat → Nat → St → Res Nat
  | 0, _, _, _, _, _ => .unsup
  | fuel + 1, strg, tyW, i, n, st =>
    if i ≥ n then .ok 0 st
    else if strg then
      let c := ch st.lnbuf st.txtPos
      let st1 := emitldi (if c = qc then 0 else Int.ofNat c.toNat) st
      let st2 := if tyW then civ_st_rel_word i st1 else civ_st_rel_byte i st1
      if ch st2.lnbuf st2.txtPos = qc then .ok 0 st2
      else civCompileLoop fuel strg tyW (i + 1) n { st2 with txtPos := st2.txtPos + 1 }
    else
      if ch st.lnbuf st.txtPos = cbraceC then .ok 0 st
      else
        match evalF fuel 0 st with
        | .jump s => .jump s
        | .unsup => .unsup
        | .ok (code, _) st1 =>
          if code = 1 then .ok 1 st1
          else
            let st2 := if tyW then civ_st_rel_word i st1 else civ_st_rel_byte i st1
            let st3 := eatspace st2
            let st4 :=
              if ch st3.lnbuf st3.txtPos = ',' then
                { st3 with txtPos := st3.txtPos + 1 }
              else st3
            civCompileLoop fuel strg tyW (i + 1) n (eatspace st4)

/-- Append a freshly built variable-table entry, maintaining varsend /
varsbegin / varslocal exactly as the C tail of createintvar does (the first
entry ever created also becomes the local frame start). -/
def appendVar (v : Var) (st : St) : St :=
  { st with
    vars := st.vars ++ [v],
    varslocalIdx := if st.vars.isEmpty then some 0 else st.varslocalIdx }

/-- createintvar: create a new word/byte/const scalar or array variable.
Translated from eightball.c.  A redefinition in the innermost scope reports
ERR_REDEF; a size below one reports ERR_DIM; both happen before anything is
allocated or appended.  An array initialiser that is neither a string nor a
list leaves the C arrinitmode variable uninitialised, which is outside the
embedding (Res.unsup). -/
def createintvarF (fuel : Nat) (key : List Char) (ty0 : Nat) (isarray : Nat)
    (sz0 : Int) (value : Int) (bodyptr0 : Int) (st : St) : Res Nat :=
  match findintvar st key true with
  | some _ => .ok 1 (error ERR_REDEF st)
  | none =>
  if sz0 < 1 then .ok 1 (error ERR_DIM st)
  else
    let isconst : Nat := if ty0 = TYPE_CONST then 1 else 0
    let ty := if ty0 = TYPE_CONST then TYPE_WORD else ty0
    let finish : Var → St → Res Nat := fun v stv =>
      .ok 0 (appendVar { v with
          vname := key,
          typeByte := isconst * 32 + isarray * 16 + ty } stv)
    if isarray = 0 then
      if st.compile then
        if isconst = 1 then
          finish { vname := [], typeByte := 0, addr := st.nextAddr,
                   val := value, bodyAddr := 0, body := [], asize := 0 }
            { st with nextAddr := st.nextAddr + 2 }
        else
          let bytes : Int := if ty = TYPE_WORD then 2 else 1
          match rt_push_callstack bytes st with
          | .jump s => .jump s
          | .unsup => .unsup
          | .ok sp st1 =>
            let addrWord := if st1.compilingsub then sp - st1.rtFP else sp + 1
            let st2 := emit (if ty = TYPE_WORD then .VM_PSHWORD else .VM_PSHBYTE) st1
            finish { vname := [], typeByte := 0, addr := st2.nextAddr,
                     val := addrWord, bodyAddr := 0, body := [], asize := 0 }
              { st2 with nextAddr := st2.nextAddr + 2 }
      else
        finish { vname := [], typeByte := 0, addr := st.nextAddr,
                 val := if ty = TYPE_WORD then value else cByte value,
                 bodyAddr := 0, body := [], asize := 0 }
          { st with nextAddr := st.nextAddr + 2 }
    else
      if bodyptr0 ≠ 0 then
        finish { vname := [], typeByte := 0, addr := st.nextAddr,
                 val := 0, bodyAddr := bodyptr0, body := [], asize := sz0 }
          { st with nextAddr := st.nextAddr + 2 }
      else
        let c0 := ch st.lnbuf st.txtPos
        if c0 ≠ '"' ∧ c0 ≠ obraceC then .unsup
        else
          let strg := c0 = '"'
          let stA := { st with txtPos := st.txtPos + 1 }
          if stA.compile then
            let bytes : Int := if ty = TYPE_WORD then sz0 * 2 else sz0
            match rt_push_callstack bytes stA with
            | .jump s => .jump s
            | .unsup => .unsup
            | .ok sp st1 =>
              let bodyptr := if st1.compilingsub then sp - st1.rtFP else sp + 1
              let st2 := emitldi sz0 st1
              let st3 := emit .VM_DUP (emit .VM_DEC st2)
              let st4 := emitldi 0 st3
              let st5 := emit (if ty = TYPE_WORD then .VM_PSHWORD else .VM_PSHBYTE) st4
              let st6 := emit .VM_NEQL (emitldi 0 st5)
              let st7 := emit_imm .VM_BRNCHIMM (st6.rtPC - 10) st6
              let st8 := emit .VM_DROP st7
              let szL := if strg then sz0 - 1 else sz0
              match civCompileLoop fuel strg (ty = TYPE_WORD) 0 szL.toNat st8 with
              | .jump s => .jump s
              | .unsup => .unsup
              | .ok code st9 =>
                if code = 1 then .ok 1 st9
                else
                  if strg then
                    if ch st9.lnbuf st9.txtPos = '"' then
                      finish { vname := [], typeByte := 0, addr := st9.nextAddr,
                               val := 0, bodyAddr := bodyptr, body := [],
                               asize := sz0 }
                        { st9 with txtPos := st9.txtPos + 1,
                                   nextAddr := st9.nextAddr + 2 }
                    else .ok 1 (error ERR_TOOLONG st9)
                  else
                    if ch st9.lnbuf st9.txtPos = cbraceC then
                      finish { vname := [], typeByte := 0, addr := st9.nextAddr,
                               val := 0, bodyAddr := bodyptr, body := [],
                               asize := sz0 }
                        { st9 with txtPos := st9.txtPos + 1,
                                   nextAddr := st9.nextAddr + 2 }
                    else .ok 1 (error ERR_TOOLONG st9)
          else
            let bodyAddr := stA.nextAddr + 2
            let szL := if strg then sz0 - 1 else sz0
            match civInterpLoop fuel strg (ty = TYPE_WORD) 0 szL.toNat
                (List.replicate szL.toNat 0) stA with
            | .jump s => .jump s
            | .unsup => .unsup
            | .ok (codeL, body) st9 =>
              if codeL = 1 then .ok 1 st9
              else
                if strg then
                  if ch st9.lnbuf st9.txtPos = '"' then
                    finish { vname := [], typeByte := 0, addr := st9.nextAddr,
                             val := 0, bodyAddr := bodyAddr, body := body,
                             asize := sz0 }
                      { st9 with txtPos := st9.txtPos + 1,
                                 nextAddr := st9.nextAddr + 2 * sz0 + 4 }
                  else .ok 1 (error ERR_TOOLONG st9)
                else
                  if ch st9.lnbuf st9.txtPos = cbraceC then
                    finish { vname := [], typeByte := 0, addr := st9.nextAddr,
                             val := 0, bodyAddr := bodyAddr, body := body,
                             asize := sz0 }
                      { st9 with txtPos := st9.txtPos + 1,
                                 nextAddr := st9.nextAddr + 2 * sz0 + 4 }
                  else .ok 1 (error ERR_TOOLONG st9)

/-! Assignment / declaration / for-loop entry. -/

def WORD_MODE : Nat := 0

def BYTE_MODE : Nat := 1

def CONST_MODE : Nat := 2

def LET_MODE : Nat := 3

def FOR_MODE : Nat := 4

/-- Chain helper: push to the return stack and continue, propagating the
long-jump outcome. -/
def pushR (v : Int) (k : St → Res Nat) (st : St) : Res Nat :=
  match push_return v st with
  | .jump s => .jump s
  | .unsup => .unsup
  | .ok _ s => k s

/-- The FOR_MODE tail of assignorcreate: consume the colon and the loop
limit, look up the loop variable address, and push the FORFRAME. -/
def aocForTail (fuel : Nat) (key : List Char) (i : Int) (st0 : St) : Res Nat :=
  let (codeC, st) := expect ':' st0
  if codeC = 1 then .ok 1 st
  else
    match evalF fuel 1 st with
    | .jump s => .jump s
    | .unsup => .unsup
    | .ok (codeK, k) st1 =>
      if codeK = 1 then .ok 1 st1
      else
        let st2 := if st1.compile then { st1 with compiletimelookup := true } else st1
        match getintvar key i true st2 with
        | .jump s => .jump s
        | .unsup => .unsup
        | .ok (codeG, j, ty) st3 =>
          if codeG = 1 then .ok 1 st3
          else
            pushR (if ty % 16 = TYPE_WORD then FORFRAME_W else FORFRAME_B)
              (fun st4 =>
                if st4.compile then
                  let isLocal :=
                    match findintvar st4 key false with
                    | some (_, loc) => loc
                    | none => false
                  pushR (bint (isLocal && st4.compilingsub)) (fun st5 =>
                    let st6 := emit .VM_PSHWORD st5
                    pushR st6.rtPC (fun st7 =>
                      pushR j (fun st8 =>
                        pushR 0 (fun st9 => .ok 0 st9) st8) st7) st6) st4
                else
                  pushR st4.counter (fun st5 =>
                    pushR (Int.ofNat st5.txtPos) (fun st6 =>
                      pushR k (fun st7 =>
                        pushR j (fun st8 => .ok 0 st8) st7) st6) st5) st4) st3

/-- The switch of assignorcreate after the initial expression: create the
variable (declaration modes, with the size-zero bump to one) or assign to it
(LET/FOR), then for FOR_MODE run the frame-pushing tail. -/
def aocSwitch (fuel : Nat) (mode : Nat) (key : List Char) (isarray : Nat)
    (i0 : Int) (j : Int) (st : St) : Res Nat :=
  if mode = WORD_MODE ∨ mode = BYTE_MODE ∨ mode = CONST_MODE then
    let i := if i0 = 0 then i0 + 1 else i0
    match createintvarF fuel key
        (if mode = CONST_MODE then TYPE_CONST
         else if mode = WORD_MODE then TYPE_WORD else TYPE_BYTE)
        isarray i j 0 st with
    | .jump s => .jump s
    | .unsup => .unsup
    | .ok code st1 =>
      if code ≠ 0 then .ok 1 st1
      else .ok 0 st1
  else
    let i := if isarray = 0 then -1 else i0
    match setintvar key i j st with
    | .jump s => .jump s
    | .unsup => .unsup
    | .ok code st1 =>
      if code ≠ 0 then .ok 1 st1
      else if mode ≠ FOR_MODE then .ok 0 st1
      else aocForTail fuel key i st1

/-- assignorcreate: the shared handler for word/byte/const declarations,
plain assignment and for-loop entry.  Translated from eightball.c, including
the save/restore of the compile flag around constant-only subscript parsing
and the quirk that an initial-expression failure leaves compile set to 1. -/
def assignorcreateF (fuel : Nat) (mode : Nat) (st0 : St) : Res Nat :=
  let oldcompile := st0.compile
  if ¬ isalphach (ch st0.lnbuf st0.txtPos) then .ok 1 (error ERR_VAR st0)
  else
    let (lex, p1) := munchName st0.lnbuf st0.txtPos
    let key := keyOf lex
    let st1 := { st0 with txtPos := p1 }
    let subPart : Res (Nat × Int × St) :=
      if ch st1.lnbuf st1.txtPos = '[' then
        if mode = WORD_MODE ∨ mode = BYTE_MODE then
          let st2 := { st1 with onlyconstants := true, compile := false }
          match subscriptF fuel st2 with
          | .jump s => .jump s
          | .unsup => .unsup
          | .ok (code, iv) st3 =>
            let st4 := { st3 with onlyconstants := false, compile := oldcompile }
            if code = 1 then .ok (1, iv, st4) st4
            else .ok (2, iv, st4) st4
        else
          match subscriptF fuel st1 with
          | .jump s => .jump s
          | .unsup => .unsup
          | .ok (code, iv) st3 =>
            if code = 1 then .ok (1, iv, st3) st3
            else .ok (2, iv, st3) st3
      else .ok (0, 0, st1) st1
    match subPart with
    | .jump s => .jump s
    | .unsup => .unsup
    | .ok (tag, iv, _) stP =>
      if tag = 1 then .ok 1 stP
      else
        let isarray : Nat := if tag = 2 then 1 else 0
        let i : Int := if tag = 2 then iv else 0
        let stE0 := eatspace stP
        let (codeEq, stEq) := expect '=' stE0
        if codeEq = 1 then .ok 1 stEq
        else
          let stEs := eatspace stEq
          let stM := if mode = CONST_MODE then { stEs with compile := false } else stEs
          let evalPart : Res (Nat × Int × St) :=
            if isarray = 0 ∨ mode = LET_MODE ∨ mode = FOR_MODE then
              match evalF fuel (if mode ≠ FOR_MODE then 1 else 0) stM with
              | .jump s => .jump s
              | .unsup => .unsup
              | .ok (code, j) stJ =>
                if code = 1 then .ok (1, j, { stJ with compile := true })
                    { stJ with compile := true }
                else .ok (0, j, stJ) stJ
            else .ok (0, 0, stM) stM
          match evalPart with
          | .jump s => .jump s
          | .unsup => .unsup
          | .ok (codeJ, j, _) stJ =>
            if codeJ = 1 then .ok 1 stJ
            else aocSwitch fuel mode key isarray i j
              { stJ with compile := oldcompile }

/-! The control-flow engine (if / while / for / return). -/

/-- doif: push the IFFRAME (tag, status or patch address, dummy slot).  The
C parameter is an unsigned char, so the condition argument is truncated. -/
def doif (arg : Int) (st : St) : Res Nat :=
  pushR IFFRAME (fun st1 =>
    if st1.compile then
      let st2 := emit .VM_NOT st1
      pushR (st2.rtPC + 1) (fun st3 =>
        let st4 := emit_imm .VM_BRNCHIMM 0xffff st3
        pushR 0 (fun st5 => .ok 0 st5) st4) st2
    else
      if st1.skipFlag then
        pushR 0 (fun st2 => pushR 0 (fun st3 => .ok 0 st3) st2) st1
      else if cByte arg = 0 then
        pushR 1 (fun st2 => pushR 0 (fun st3 => .ok 0 st3) st2)
          { st1 with skipFlag := true }
      else
        pushR 2 (fun st2 => pushR 0 (fun st3 => .ok 0 st3) st2) st1) st

/-- doelse: in the interpreter, toggle skipFlag according to the status the
matching if left in the frame; in the compiler, start the jump over the else
block and patch the if branch to here. -/
def doelse (st : St) : Res Nat :=
  if st.rs.getD 2 0 ≠ IFFRAME then .ok 1 (error ERR_NOIF st)
  else if st.compile then
    let st1 := { st with rs := st.rs.set 0 (st.rtPC + 1) }
    let st2 := emit_imm .VM_JMPIMM 0xffff st1
    let st3 := emit_fixup (st2.rs.getD 1 0) st2.rtPC st2
    .ok 0 { st3 with rs := st3.rs.set 1 0 }
  else
    if st.rs.getD 1 0 = 2 then .ok 0 { st with skipFlag := true }
    else if st.rs.getD 1 0 = 1 then .ok 0 { st with skipFlag := false }
    else .ok 0 st

/-- The three pops at the end of doendif / the five at the end of doendfor,
with long-jump propagation. -/
def popN : Nat → St → Res Nat
  | 0, st => .ok 0 st
  | n + 1, st =>
    match pop_return st with
    | .jump s => .jump s
    | .unsup => .unsup
    | .ok _ st1 => popN n st1

/-- doendif: patch outstanding placeholders (compile) or clear skipFlag when
this frame set it (interpret), then pop the three IFFRAME slots. -/
def doendif (st : St) : Res Nat :=
  if st.rs.getD 2 0 ≠ IFFRAME then .ok 1 (error ERR_NOIF st)
  else
    let st1 :=
      if st.compile then
        let stA := if st.rs.getD 1 0 ≠ 0 then emit_fixup (st.rs.getD 1 0) st.rtPC st else st
        if stA.rs.getD 0 0 ≠ 0 then emit_fixup (stA.rs.getD 0 0) stA.rtPC stA else stA
      else
        if st.rs.getD 1 0 ≠ 0 then { st with skipFlag := false } else st
    popN 3 st1

/-- dowhile: push the WHILEFRAME.  The C condition argument is an unsigned
char, so it is truncated. -/
def dowhile (startTxtPos : Nat) (arg : Int) (st : St) : Res Nat :=
  pushR WHILEFRAME (fun st1 =>
    if st1.compile then
      pushR st1.rtPCBeforeEval (fun st2 =>
        let st3 := emit .VM_NOT st2
        pushR (st3.rtPC + 1) (fun st4 =>
          let st5 := emit_imm .VM_BRNCHIMM 0xffff st4
          pushR 0 (fun st6 => .ok 0 st6) st5) st3) st1
    else
      let statusPush : St → Res Nat := fun stS =>
        pushR stS.counter (fun st2 =>
          pushR (Int.ofNat startTxtPos) (fun st3 => .ok 0 st3) st2) stS
      if st1.skipFlag then pushR 0 statusPush st1
      else if cByte arg = 0 then
        pushR 1 statusPush { st1 with skipFlag := true }
      else pushR 2 statusPush st1) st

/-- findline: walk the program to the given 1-based line number, setting
current and counter; a miss leaves current cleared past the end. -/
def findline (linenum : Int) (st : St) : St :=
  if 1 ≤ linenum ∧ linenum.toNat ≤ st.program.length then
    { st with current := some (linenum.toNat - 1), counter := linenum,
              lnbuf := st.program.getD (linenum.toNat - 1) [] }
  else
    { st with current := none, counter := Int.ofNat st.program.length + 1 }

/-- backtotop: return to immediate mode (line -1) or reload the line holding
the opening statement of a loop or call and restore the stashed text pointer.
A line number that no longer exists hits the should-never-happen EXIT(99),
modelled as none. -/
def backtotop (linenum : Int) (oldTxtPos : Int) (st : St) : Option St :=
  if linenum = -1 then
    some { st with counter := -1, current := none, txtPos := oldTxtPos.toNat }
  else
    let st1 := findline (linenum + 1) st
    match st1.current with
    | none => none
    | some _ => some { st1 with counter := st1.counter - 1, txtPos := oldTxtPos.toNat }

/-- Find the variable owning the given abstract address handle. -/
def findVarByAddr (st : St) (a : Int) : Option Var :=
  st.vars.find? (fun v => v.addr = a)

/-- doendwhile: compile emits the back jump and patches the guard branch;
interpret acts on the stored status, looping back through backtotop when the
guard held.  The impossible status hits exit(99), modelled as Res.unsup. -/
def doendwhile (st : St) : Res Nat :=
  if st.rs.getD 3 0 ≠ WHILEFRAME then .ok 1 (error ERR_NOWHILE st)
  else if st.compile then
    let st1 := emit_imm .VM_JMPIMM (st.rs.getD 2 0) st
    let st2 := emit_fixup (st1.rs.getD 1 0) st1.rtPC st1
    popN 4 st2
  else
    if st.rs.getD 2 0 = 0 then popN 4 st
    else if st.rs.getD 2 0 = 1 then popN 4 { st with skipFlag := false }
    else if st.rs.getD 2 0 = 2 then
      match backtotop (st.rs.getD 1 0) (st.rs.getD 0 0) st with
      | none => .unsup
      | some st1 => popN 4 st1
    else .unsup

/-- doendfor: compile emits the increment/compare/branch sequence and unwinds;
interpret reads the loop variable through the stored pointer, and either
increments it and jumps back to the loop top or unwinds the FORFRAME. -/
def doendfor (st : St) : Res Nat :=
  let tag := st.rs.getD 4 0
  if tag ≠ FORFRAME_W ∧ tag ≠ FORFRAME_B then .ok 1 (error ERR_NOFOR st)
  else
    let tyW := tag = FORFRAME_W
    if st.compile then
      let st1 := emit .VM_PSHWORD (emit .VM_DUP (emit .VM_POPWORD st))
      let st2 :=
        if st.rs.getD 3 0 ≠ 0 then
          emit_imm (if tyW then .VM_LDRWORDIMM else .VM_LDRBYTEIMM)
            (st.rs.getD 1 0) st1
        else
          emit_imm (if tyW then .VM_LDAWORDIMM else .VM_LDABYTEIMM)
            (st.rs.getD 1 0) st1
      let st3 := emit .VM_DUP (emit .VM_INC st2)
      let st4 :=
        if st.rs.getD 3 0 ≠ 0 then
          emit_imm (if tyW then .VM_STRWORDIMM else .VM_STRBYTEIMM)
            (st.rs.getD 1 0) st3
        else
          emit_imm (if tyW then .VM_STAWORDIMM else .VM_STABYTEIMM)
            (st.rs.getD 1 0) st3
      let st5 := emit .VM_GTE st4
      let st6 := emit_imm .VM_BRNCHIMM (st.rs.getD 2 0) st5
      let st7 := emit .VM_DROP (emit .VM_POPWORD st6)
      popN 5 st7
    else
      match findVarByAddr st (st.rs.getD 0 0) with
      | none => .unsup
      | some v =>
        let val := v.val
        if val < st.rs.getD 1 0 then
          let st1 := updateVar st v
            { v with val := if tyW then v.val + 1 else cByte (v.val + 1) }
          match backtotop (st1.rs.getD 3 0) (st1.rs.getD 2 0) st1 with
          | none => .unsup
          | some st2 => .ok 0 st2
        else popN 5 st

/-- The last index of a call-frame marker entry in the variable table. -/
def lastMarkerIdx (l : List Var) : Option Nat :=
  ((l.enum.filter (fun p => p.2.vname.headD nulc = '-')).getLast?).map (fun p => p.1)

/-- vars_deletecallframe: release the local variables of the innermost call
frame in O(1) by truncating the table at the frame marker, then rescan for
the previous marker.  Calling it when varslocal is not a marker reads a
variable value as a heap pointer in C, which is outside the embedding. -/
def vars_deletecallframe (st : St) : Option St :=
  match st.varslocalIdx with
  | none => none
  | some i =>
    match st.vars.get? i with
    | none => none
    | some v =>
      if v.vname.headD nulc = '-' then
        let vars2 := st.vars.take i
        some { st with
          vars := vars2,
          calllevel := st.calllevel - 1,
          varslocalIdx := lastMarkerIdx vars2 }
      else none

/-- doreturn: compile emits SP:=FP and RTS; interpret unwinds the return
stack to the first CALLFRAME value, stores the return register, tears down
the local variable frame and resumes at the stashed line and text pointer.
An unwind that finds the CALLFRAME with fewer than two slots above it would
read freed stack slots in C (outside the embedding). -/
def doreturn (retvalue : Int) (st : St) : Res Nat :=
  if st.compile then
    .ok 0 (emit .VM_RTS (emit .VM_FPTOSP st))
  else
    match st.rs.indexOf? CALLFRAME with
    | none => .ok 1 (error ERR_STACK st)
    | some k =>
      if k < 2 then .unsup
      else
        let l := st.rs.getD (k - 1) 0
        let t := st.rs.getD (k - 2) 0
        let st1 := { st with rs := st.rs.drop (k + 1), retregister := retvalue }
        match vars_deletecallframe st1 with
        | none => .unsup
        | some st2 =>
          match backtotop l t st2 with
          | none => .unsup
          | some st3 => .ok 0 st3

/-! The statement dispatcher (parseline) and its table. -/

def TOK_COMM : Nat := 150

def TOK_PRDEC : Nat := 151

def TOK_PRDEC_S : Nat := 152

def TOK_PRHEX : Nat := 153

def TOK_PRMSG : Nat := 154

def TOK_PRNL : Nat := 155

def TOK_PRSTR : Nat := 156

def TOK_PRCH : Nat := 157

def TOK_KBDCH : Nat := 158

def TOK_KBDLN : Nat := 159

def TOK_QUIT : Nat := 160

def TOK_CLEAR : Nat := 161

def TOK_VARS : Nat := 162

def TOK_WORD : Nat := 163

def TOK_BYTE : Nat := 164

def TOK_CONST : Nat := 165

def TOK_RUN : Nat := 166

def TOK_COMPILE : Nat := 167

def TOK_NEW : Nat := 168

def TOK_SUBR : Nat := 169

def TOK_ENDSUBR : Nat := 170

def TOK_IF : Nat := 171

def TOK_ELSE : Nat := 172

def TOK_ENDIF : Nat := 173

def TOK_FREE : Nat := 174

def TOK_CALL : Nat := 175

def TOK_RET : Nat := 176

def TOK_FOR : Nat := 177

def TOK_ENDFOR : Nat := 178

def TOK_WHILE : Nat := 179

def TOK_ENDW : Nat := 180

def TOK_END : Nat := 181

def TOK_MODE : Nat := 182

def TOK_POKEWORD : Nat := 183

def TOK_POKEBYTE : Nat := 184

def TOK_LOAD : Nat := 185

def TOK_SAVE : Nat := 186

def TOK_LIST : Nat := 187

def TOK_CHANGE : Nat := 188

def TOK_APP : Nat := 189

def TOK_INS : Nat := 190

def TOK_DEL : Nat := 191

/-- Argument shapes of the statement table (enum stmnttype). -/
inductive StType where
  | FULLLINE | NOARGS | ONEARG | TWOARGS | INITIALARG | ONESTRARG
  | INITIALNAMEARG | CUSTOM
deriving DecidableEq

/-- The statement table of eightball.c, in table order (token order). -/
def stmnttab : List (List Char × Nat × StType) :=
  [([qc], TOK_COMM, .FULLLINE),
   ("pr.dec".data, TOK_PRDEC, .ONEARG),
   ("pr.dec.s".data, TOK_PRDEC_S, .ONEARG),
   ("pr.hex".data, TOK_PRHEX, .ONEARG),
   ("pr.msg".data, TOK_PRMSG, .ONESTRARG),
   ("pr.nl".data, TOK_PRNL, .NOARGS),
   ("pr.str".data, TOK_PRSTR, .ONEARG),
   ("pr.ch".data, TOK_PRCH, .ONEARG),
   ("kbd.ch".data, TOK_KBDCH, .ONEARG),
   ("kbd.ln".data, TOK_KBDLN, .TWOARGS),
   ("quit".data, TOK_QUIT, .NOARGS),
   ("clear".data, TOK_CLEAR, .NOARGS),
   ("vars".data, TOK_VARS, .NOARGS),
   ("word".data, TOK_WORD, .CUSTOM),
   ("byte".data, TOK_BYTE, .CUSTOM),
   ("const".data, TOK_CONST, .CUSTOM),
   ("run".data, TOK_RUN, .NOARGS),
   ("comp".data, TOK_COMPILE, .ONESTRARG),
   ("new".data, TOK_NEW, .NOARGS),
   ("sub".data, TOK_SUBR, .INITIALNAMEARG),
   ("endsub".data, TOK_ENDSUBR, .NOARGS),
   ("if".data, TOK_IF, .ONEARG),
   ("else".data, TOK_ELSE, .NOARGS),
   ("endif".data, TOK_ENDIF, .NOARGS),
   ("free".data, TOK_FREE, .NOARGS),
   ("call".data, TOK_CALL, .INITIALNAMEARG),
   ("return".data, TOK_RET, .ONEARG),
   ("for".data, TOK_FOR, .CUSTOM),
   ("endfor".data, TOK_ENDFOR, .NOARGS),
   ("while".data, TOK_WHILE, .ONEARG),
   ("endwhile".data, TOK_ENDW, .NOARGS),
   ("end".data, TOK_END, .NOARGS),
   ("mode".data, TOK_MODE, .ONEARG),
   ("*".data, TOK_POKEWORD, .INITIALARG),
   ("^".data, TOK_POKEBYTE, .INITIALARG),
   (":r".data, TOK_LOAD, .ONESTRARG),
   (":w".data, TOK_SAVE, .ONESTRARG),
   (":l".data, TOK_LIST, .CUSTOM),
   (":c".data, TOK_CHANGE, .INITIALARG),
   (":a".data, TOK_APP, .ONEARG),
   (":i".data, TOK_INS, .ONEARG),
   (":d".data, TOK_DEL, .INITIALARG)]

/-- The scan of matchstatement over the table: the first entry whose name
matches at the cursor wins, where every token between TOK_COMM and
TOK_POKEWORD (exclusive) additionally requires a separator (NUL, space or
semicolon) after the keyword. -/
def matchstatementGo : List (List Char × Nat × StType) → List Char → Nat → Nat
  | [], _, _ => ILLEGAL
  | (nm, tok, _) :: rest, l, i =>
    if cstrncmpeq (l.drop i) nm nm.length then
      if tok ≥ TOK_POKEWORD ∨ tok ≤ TOK_COMM then tok
      else
        let c := ch l (i + nm.length)
        if c = nulc ∨ c = ' ' ∨ c = ';' then tok
        else matchstatementGo rest l i
    else matchstatementGo rest l i

/-- matchstatement: find the statement keyword at the cursor. -/
def matchstatement (st : St) : Nat := matchstatementGo stmnttab st.lnbuf st.txtPos

/-- The argument shape of a token (stmnttab[token - TOK_COMM].type). -/
def stypeOf (token : Nat) : StType :=
  (stmnttab.getD (token - TOK_COMM) ([], 0, .CUSTOM)).2.2

/-- The keyword length of a token (strlen(stmnttab[token - TOK_COMM].name)). -/
def stnameLen (token : Nat) : Nat :=
  (stmnttab.getD (token - TOK_COMM) ([], 0, .CUSTOM)).1.length

/-- checkNoMoreArgs: report ERR_EXTRA unless the line continues with a
semicolon or ends. -/
def checkNoMoreArgs (st0 : St) : Nat × St :=
  let st := eatspace st0
  let c := ch st.lnbuf st.txtPos
  if c ≠ nulc ∧ c ≠ ';' then
    (1, prout (st.lnbuf.drop st.txtPos) (printchar ' ' (error ERR_EXTRA st)))
  else (0, st)

/-- The loop of the quoted-string collector of the ONESTRARG shape
(fuelled). -/
def munchStrAux : Nat → List Char → Nat → List Char × Nat
  | 0, _, i => ([], i)
  | n + 1, l, i =>
    if ch l i ≠ nulc ∧ ch l i ≠ '"' then
      let (rest, j) := munchStrAux n l (i + 1)
      (ch l i :: rest, j)
    else ([], i)

/-- The quoted-string collector of the ONESTRARG shape: characters up to the
closing quote or the end of the line. -/
def munchStr (l : List Char) (i : Nat) : List Char × Nat :=
  munchStrAux (l.length + 1 - i) l i

/-- Modelled from the spec: printhex of eightballutils (not under src/)
prints a 16-bit value as four hex digits. -/
def printhex (v : Int) (st : St) : St :=
  { st with output := st.output ++ (Nat.toDigits 16 (v.emod 65536).toNat) }

/-- Outcome of one sweep of the parseline dispatcher loop body: continue the
loop, return a code from parseline, long-jump, or leave the fragment. -/
inductive StepR where
  | cont : St → StepR
  | ret : Nat → St → StepR
  | jmp : St → StepR
  | unsup : StepR
deriving DecidableEq

/-- The per-token statement handlers of the parseline switch.  The handlers
embedded here are exactly the interpreter/compiler actions of eightball.c for
the corresponding tokens; tokens whose handlers re-enter the interpreter
(run, comp, call, sub in compile mode), touch files or the screen editor, or
dereference raw memory are StepR.unsup. -/
def plExec (fuel : Nat) (token : Nat) (arg arg2 : Int) (startTxtPos : Nat)
    (st : St) : StepR :=
  if token = TOK_COMM then .cont st
  else if token = TOK_QUIT then .unsup
  else if token = TOK_PRDEC then
    if st.compile then .cont (emit .VM_PRDEC st) else .cont (printdec arg st)
  else if token = TOK_PRDEC_S then
    let st1 :=
      if st.compile then
        let a := emit .VM_NOT (emit .VM_BITAND (emitldi 0x8000 (emit .VM_DUP st)))
        let b := emit_imm .VM_BRNCHIMM (a.rtPC + 9) a
        emit .VM_PRDEC (emit .VM_NEG (emit .VM_PRCH (emitldi 45 b)))
      else st
    let (arg3, st2) :=
      if arg < 0 then (-arg, printchar '-' st1) else (arg, st1)
    .cont (printdec arg3 st2)
  else if token = TOK_PRHEX then
    if st.compile then .cont (emit .VM_PRHEX st) else .cont (printhex arg st)
  else if token = TOK_PRMSG then
    if st.compile then .cont (emitprmsg st) else .cont (prout st.readbuf st)
  else if token = TOK_PRNL then
    if st.compile then .cont (emit .VM_PRCH (emitldi 10 st))
    else .cont (printchar (Char.ofNat 10) st)
  else if token = TOK_PRSTR then
    if st.compile then .cont (emit .VM_PRSTR st) else .unsup
  else if token = TOK_PRCH then
    if st.compile then .cont (emit .VM_PRCH st)
    else .cont (printchar (Char.ofNat (cByte arg).toNat) st)
  else if token = TOK_KBDCH then
    if st.compile then .cont (emit .VM_STABYTE (emit .VM_SWAP (emit .VM_KBDCH st)))
    else .cont (prout "kbd.ch unimplemented on Linux\n".data st)
  else if token = TOK_KBDLN then
    if st.compile then .cont (emit .VM_KBDLN st) else .unsup
  else if token = TOK_CLEAR then .cont (clearvars st)
  else if token = TOK_VARS then .unsup
  else if token = TOK_WORD ∨ token = TOK_BYTE ∨ token = TOK_CONST then
    let mode := if token = TOK_WORD then WORD_MODE
                else if token = TOK_BYTE then BYTE_MODE else CONST_MODE
    match assignorcreateF fuel mode st with
    | .jump s => .jmp s
    | .unsup => .unsup
    | .ok code st1 => if code ≠ 0 then .ret 2 st1 else .cont st1
  else if token = TOK_RUN then .unsup
  else if token = TOK_COMPILE then .unsup
  else if token = TOK_NEW then .cont { st with program := [], current := none }
  else if token = TOK_SUBR then
    if st.compile then .unsup else .ret 2 (error ERR_RUNSUB st)
  else if token = TOK_ENDSUBR then
    if st.compile then .unsup
    else
      match doreturn 0 st with
      | .jump s => .jmp s
      | .unsup => .unsup
      | .ok _ st1 => .cont st1
  else if token = TOK_CALL then .unsup
  else if token = TOK_RET then
    match doreturn arg st with
    | .jump s => .jmp s
    | .unsup => .unsup
    | .ok code st1 =>
      if code ≠ 0 then .ret 2 st1
      else if st1.rs.getD 1 0 = -2 then .ret 1 st1
      else .cont st1
  else if token = TOK_IF then
    match doif arg st with
    | .jump s => .jmp s
    | .unsup => .unsup
    | .ok _ st1 => .cont st1
  else if token = TOK_ELSE then
    match doelse st with
    | .jump s => .jmp s
    | .unsup => .unsup
    | .ok code st1 => if code ≠ 0 then .ret 2 st1 else .cont st1
  else if token = TOK_ENDIF then
    match doendif st with
    | .jump s => .jmp s
    | .unsup => .unsup
    | .ok code st1 => if code ≠ 0 then .ret 2 st1 else .cont st1
  else if token = TOK_FOR then
    match assignorcreateF fuel FOR_MODE st with
    | .jump s => .jmp s
    | .unsup => .unsup
    | .ok code st1 => if code ≠ 0 then .ret 2 st1 else .cont st1
  else if token = TOK_ENDFOR then
    match doendfor st with
    | .jump s => .jmp s
    | .unsup => .unsup
    | .ok code st1 => if code ≠ 0 then .ret 2 st1 else .cont st1
  else if token = TOK_WHILE then
    match dowhile startTxtPos arg st with
    | .jump s => .jmp s
    | .unsup => .unsup
    | .ok _ st1 => .cont st1
  else if token = TOK_ENDW then
    match doendwhile st with
    | .jump s => .jmp s
    | .unsup => .unsup
    | .ok code st1 => if code ≠ 0 then .ret 2 st1 else .cont st1
  else if token = TOK_END then
    if st.compile then .cont (emit .VM_END st) else .ret 1 st
  else if token = TOK_MODE then .cont st
  else if token = TOK_FREE then .unsup
  else if token = TOK_POKEWORD ∨ token = TOK_POKEBYTE then
    let stS := eatspace st
    let (codeEq, st1) := expect '=' stS
    if codeEq = 1 then .ret 2 st1
    else
      match evalF fuel 1 st1 with
      | .jump s => .jmp s
      | .unsup => .unsup
      | .ok (code, _) st2 =>
        if code = 1 then .ret 2 st2
        else if st2.compile then
          .ret 0 (emit (if token = TOK_POKEWORD then .VM_STAWORD else .VM_STABYTE)
            (emit .VM_SWAP st2))
        else .unsup
  else .unsup

/-- The generic argument handling of parseline (the switch on the statement
type), followed by the per-token handler. -/
def plArgs (fuel : Nat) (token : Nat) (startTxtPos : Nat) (st : St) : StepR :=
  match stypeOf token with
  | .NOARGS =>
    let (code, st1) := checkNoMoreArgs st
    if code ≠ 0 then .ret 2 st1 else plExec fuel token 0 0 startTxtPos st1
  | .ONEARG =>
    match evalF fuel 1 st with
    | .jump s => .jmp s
    | .unsup => .unsup
    | .ok (code, arg) st1 =>
      if code = 1 then .ret 2 st1 else plExec fuel token arg 0 startTxtPos st1
  | .TWOARGS =>
    match evalF fuel 0 st with
    | .jump s => .jmp s
    | .unsup => .unsup
    | .ok (code, arg) st1 =>
      if code = 1 then .ret 2 st1
      else
        let st2 := eatspace st1
        let (codeC, st3) := expect ',' st2
        if codeC = 1 then .ret 2 st3
        else
          match evalF fuel 0 st3 with
          | .jump s => .jmp s
          | .unsup => .unsup
          | .ok (code2, arg2) st4 =>
            if code2 = 1 then .ret 2 st4
            else plExec fuel token arg arg2 startTxtPos st4
  | .INITIALARG =>
    match evalF fuel 0 st with
    | .jump s => .jmp s
    | .unsup => .unsup
    | .ok (code, arg) st1 =>
      if code = 1 then .ret 2 st1 else plExec fuel token arg 0 startTxtPos st1
  | .ONESTRARG =>
    if ch st.lnbuf st.txtPos ≠ '"' then .ret 2 st
    else
      let (strv, j) := munchStr st.lnbuf (st.txtPos + 1)
      let st1 := { st with readbuf := strv }
      if ch st1.lnbuf j = '"' then
        let st2 := { st1 with txtPos := j + 1 }
        let (code, st3) := checkNoMoreArgs st2
        if code ≠ 0 then .ret 2 st3 else plExec fuel token 0 0 startTxtPos st3
      else .ret 2 (error ERR_STR { st1 with txtPos := j })
  | .INITIALNAMEARG =>
    if ¬ isalphach (ch st.lnbuf st.txtPos) then .ret 2 st
    else
      let (lex, j) := munchName st.lnbuf st.txtPos
      plExec fuel token 0 0 startTxtPos { st with readbuf := lex, txtPos := j }
  | .FULLLINE =>
    plExec fuel token 0 0 startTxtPos
      { st with txtPos := lineEndPos st.lnbuf st.txtPos }
  | .CUSTOM => plExec fuel token 0 0 startTxtPos st

/-- One sweep of the parseline dispatcher loop body: the interrupt poll, the
space/semicolon prelude, statement matching, the skipFlag filter, the
assignment fallback for unrecognised statements, keyword consumption, and
argument handling plus the statement handler. -/
def plStep (fuel : Nat) (st0 : St) : StepR :=
  if st0.interrupted then .ret 3 st0
  else
    let stA := eatspace st0
    match eatSemisPos stA.lnbuf stA.txtPos with
    | none => .ret 0 { stA with txtPos := lineEndPos stA.lnbuf stA.txtPos }
    | some i1 =>
      let st1 := { stA with txtPos := i1 }
      if ch st1.lnbuf st1.txtPos = nulc then .ret 0 st1
      else
        let startTxtPos := st1.txtPos
        let token := matchstatement st1
        if st1.skipFlag ∧ token ≠ TOK_IF ∧ token ≠ TOK_ELSE ∧
            token ≠ TOK_ENDIF ∧ token ≠ TOK_WHILE ∧ token ≠ TOK_ENDW then
          .cont { st1 with txtPos := skipToStmtEnd st1.lnbuf st1.txtPos }
        else if token = ILLEGAL then
          match assignorcreateF fuel LET_MODE st1 with
          | .jump s => .jmp s
          | .unsup => .unsup
          | .ok code st2 => if code ≠ 0 then .ret 2 st2 else .cont st2
        else
          let st2 := eatspace { st1 with txtPos := st1.txtPos + stnameLen token }
          let st3 := { st2 with rtPCBeforeEval := st2.rtPC }
          plArgs fuel token startTxtPos st3

/-- parseline: iterate the dispatcher loop body. -/
def parselineF : Nat → St → Res Nat
  | 0, _ => .unsup
  | fuel + 1, st =>
    match plStep fuel st with
    | .cont st1 => parselineF fuel st1
    | .ret c st1 => .ok c st1
    | .jmp s => .jump s
    | .unsup => .unsup

/-! run(). -/

/-- The initialisation run() performs for a fresh start (cont == 0): reset
the call level and skip flag, zero the line counter, clear the whole variable
table, empty the return stack, and point execution at the first program
line.  This happens before any program line is parsed. -/
def runInit (st : St) : St :=
  { st with
    calllevel := 0, skipFlag := false, counter := 0,
    vars := [], varslocalIdx := none, rs := [],
    current := if st.program.isEmpty then none else some 0 }

/-- The line-execution loop of run(). -/
def runLoopF : Nat → St → Res Nat
  | 0, _ => .unsup
  | fuel + 1, st =>
    match st.current with
    | none => .ok 0 st
    | some i =>
      let st1 := if st.compile then printchar '.' st else st
      let st2 := { st1 with lnbuf := st1.program.getD i [], txtPos := 0 }
      match parselineF fuel st2 with
      | .jump s => .jump s
      | .unsup => .unsup
      | .ok status st3 =>
        if status ≠ 0 then .ok status st3
        else
          match st3.current with
          | none => .ok 0 st3
          | some i2 =>
            runLoopF fuel
              { st3 with
                current := if i2 + 1 < st3.program.length then some (i2 + 1)
                           else none,
                counter := st3.counter + 1 }

/-- The status switch at the end of run(): error or break reporting resets
the return stack, the skip flag and the compile flag. -/
def runFinish (status : Nat) (st : St) : St :=
  if status = 2 then
    let st1 := printchar (Char.ofNat 10) (printdec st.counter (prout " err at ".data st))
    { st1 with rs := [], skipFlag := false, compile := false }
  else if status = 3 then
    let st1 := printchar (Char.ofNat 10)
      (printdec st.counter (prout ("\nBrk at ".data) st))
    { st1 with rs := [], skipFlag := false, compile := false }
  else st

/-- run(): for cont == 0 the full re-initialisation through runInit happens
before the loop executes the first program line; for cont == 1 only the call
level and skip flag are reset. -/
def runF (fuel : Nat) (contFlag : Nat) (st : St) : Res Nat :=
  let stI := if contFlag = 0 then runInit st
             else { st with calllevel := 0, skipFlag := false }
  match runLoopF fuel stI with
  | .jump s => .jump s
  | .unsup => .unsup
  | .ok status st1 => .ok status (runFinish status st1)

/-! The top of main(): the warm-restart point and the immediate-mode
iteration epilogue. -/

/-- Macro clearexprstacks: reset both expression stack pointers and push the
SENTINEL floor. -/
def clearexprstacks (st : St) : St :=
  { st with opndStack := [], oprStack := [SENTINEL] }

/-- The code main() runs between landing at the setjmp warm-restart point and
handing the next immediate-mode input line to parseline: print Restart, clear
the expression stacks, print the edit-mode prompt if editing, clear the
compile flag, read the input line, and (in immediate mode) aim the cursor at
it with no current program line.  Nothing here touches the return stack
pointer or skipFlag. -/
def mainWarmResume (st : St) (input : List Char) : St :=
  let st1 := prout "Restart\n".data st
  let st2 := clearexprstacks st1
  let st3 := if st2.editmode ≠ 0 then printchar '>' st2 else st2
  let st4 := { st3 with compile := false, lnbuf := input }
  if st4.editmode = 0 then { st4 with txtPos := 0, current := none, counter := -1 }
  else st4

/-- The epilogue of one immediate-mode iteration of the main loop, after
parseline has returned: the status switch, the leftover-return-stack check,
and the unconditional clearing of skipFlag. -/
def immediatePost (status : Nat) (st : St) : St :=
  let st1 :=
    if status = 0 ∨ status = 1 then printchar (Char.ofNat 10) st
    else if status = 2 then
      { (prout " err\n".data st) with rs := [], skipFlag := false }
    else if status = 3 then
      { (prout "Brk\n".data st) with rs := [], skipFlag := false }
    else st
  let st2 := if st1.rs ≠ [] then { (error ERR_STACK st1) with rs := [] } else st1
  { st2 with skipFlag := false }

/-! The subroutine linker. -/

/-- An entry of the subroutine definition or pending-call lists
(struct subtabent): the first SUBRNUMCHARS name characters and either the
entry address of the definition or the address of the call placeholder. -/
structure SubEnt where
  sname : List Char
  saddr : Int
deriving DecidableEq

/-- The inner search loop of linksubs: the first definition whose name
matches the pending call on the first SUBRNUMCHARS characters. -/
def linkResolve (subs : List SubEnt) (c : SubEnt) : Option SubEnt :=
  subs.find? (fun s => cstrncmpeq s.sname c.sname SUBRNUMCHARS)

/-- linksubs: walk the pending-call list in order, writing each resolved
definition entry address into the call placeholder (an emit_fixup, modelled
as the (placeholder address, entry address) pair list in order); an
unresolvable call reports the link error and abandons the walk (the Bool).
A nonempty call list with an empty definition list dereferences a null
pointer in C, modelled as none. -/
def linksubs : List SubEnt → List SubEnt → Option (List (Int × Int) × Bool)
  | _, [] => some ([], false)
  | subs, c :: rest =>
    if subs.isEmpty then none
    else
      match linkResolve subs c with
      | none => some ([], true)
      | some sdef =>
        match linksubs subs rest with
        | none => none
        | some (fx, e) => some ((c.saddr, sdef.saddr) :: fx, e)

/-! Concrete states and result extractors used by witnesses and
counterexamples. -/

/-- The interpreter state right after the initialisation in main() (immediate
mode, empty program, expression stacks cleared). -/
def initSt : St :=
  { lnbuf := [], txtPos := 0, readbuf := [], vars := [], varslocalIdx := none,
    nextAddr := 1000, calllevel := 1, rs := [], skipFlag := false,
    counter := -1, current := none, program := [], output := [], errs := [],
    retregister := 0, compile := false, compilingsub := false,
    onlyconstants := false, compiletimelookup := false, opndStack := [],
    oprStack := [SENTINEL], emitted := [], rtPC := 0, rtSP := 0, rtFP := 0,
    rtPCBeforeEval := 0, editmode := 0, interrupted := false }

/-- Return code of a parse result (90/91 marking the non-return outcomes). -/
def resCode : Res Nat → Nat
  | .ok c _ => c
  | .jump _ => 90
  | .unsup => 91

/-- Final state of a parse result, with a default for non-return outcomes. -/
def resSt : Res Nat → St → St
  | .ok _ s, _ => s
  | .jump s, _ => s
  | .unsup, d => d

/-! Claim C7: the operator precedence table. -/

/-- Every token getprecedence accepts (everything except its EXIT(99)
default). -/
def legalPrecTokens : List Nat :=
  [TOK_UNM, TOK_UNP, TOK_NOT, TOK_BITNOT, TOK_STAR, TOK_CARET,
   TOK_POW, TOK_MUL, TOK_DIV, TOK_MOD, TOK_ADD, TOK_SUB,
   TOK_LSH, TOK_RSH, TOK_LT, TOK_LTE, TOK_GT, TOK_GTE,
   TOK_EQL, TOK_NEQL, TOK_BITAND, TOK_BITXOR, TOK_BITOR,
   TOK_AND, TOK_OR, SENTINEL]

/-- Claim C7: the precedence function over operator tokens equals exactly the
specified table: unary -, +, !, ~, * (word deref), ^ (byte deref) have
precedence 11; binary ^ (pow), *, /, % have 10; binary +, - have 9; <<, >>
have 8; <, <=, >, >= have 7; ==, != have 6; & has 5; ^ (xor) has 4; | has 3;
&& has 2; || has 1; and SENTINEL has 0, strictly the lowest value among the
accepted tokens. -/
theorem claim_C7_precedence_table :
    getprecedence TOK_UNM = some 11 ∧ getprecedence TOK_UNP = some 11 ∧
    getprecedence TOK_NOT = some 11 ∧ getprecedence TOK_BITNOT = some 11 ∧
    getprecedence TOK_STAR = some 11 ∧ getprecedence TOK_CARET = some 11 ∧
    getprecedence TOK_POW = some 10 ∧ getprecedence TOK_MUL = some 10 ∧
    getprecedence TOK_DIV = some 10 ∧ getprecedence TOK_MOD = some 10 ∧
    getprecedence TOK_ADD = some 9 ∧ getprecedence TOK_SUB = some 9 ∧
    getprecedence TOK_LSH = some 8 ∧ getprecedence TOK_RSH = some 8 ∧
    getprecedence TOK_LT = some 7 ∧ getprecedence TOK_LTE = some 7 ∧
    getprecedence TOK_GT = some 7 ∧ getprecedence TOK_GTE = some 7 ∧
    getprecedence TOK_EQL = some 6 ∧ getprecedence TOK_NEQL = some 6 ∧
    getprecedence TOK_BITAND = some 5 ∧ getprecedence TOK_BITXOR = some 4 ∧
    getprecedence TOK_BITOR = some 3 ∧ getprecedence TOK_AND = some 2 ∧
    getprecedence TOK_OR = some 1 ∧ getprecedence SENTINEL = some 0 ∧
    (∀ t ∈ legalPrecTokens, t ≠ SENTINEL →
      ((getprecedence SENTINEL).getD 0 < (getprecedence t).getD 0)) := by
  decide

/-- The 8-character key of a subroutine name (strncpy padding). -/
def keyOf8 (lexeme : List Char) : List Char :=
  (lexeme ++ List.replicate SUBRNUMCHARS nulc).take SUBRNUMCHARS

/-! Claim C3: the subroutine linker. -/

/-- Claim C3: after compilation the linker visits every pending call in list
order; when every call resolves, each placeholder receives the entry address
of the first definition whose first 8 name characters match, in order, with
no link error; when some call does not resolve, the link error is reported
(the walk is abandoned there, making the compilation fail to link). -/
theorem claim_C3_linker (subs calls : List SubEnt)
    (hne : subs ≠ [] ∨ calls = []) :
    ((∀ c ∈ calls, (linkResolve subs c).isSome) →
      linksubs subs calls =
        some (calls.map
          (fun c => (c.saddr, ((linkResolve subs c).map SubEnt.saddr).getD 0)),
          false)) ∧
    ((∃ c ∈ calls, linkResolve subs c = none) →
      ∃ fx, linksubs subs calls = some (fx, true)) := by
  induction calls with
  | nil =>
    constructor
    · intro _
      simp [linksubs]
    · intro h
      simp at h
  | cons c rest ih =>
    have hsubs : ¬ subs.isEmpty := by
      cases hne with
      | inl h => simp [List.isEmpty_iff, h]
      | inr h => simp at h
    have ih2 := ih (Or.inl (by intro h; simp [h, List.isEmpty_iff] at hsubs))
    constructor
    · intro hall
      have hc := hall c (by simp)
      match hres : linkResolve subs c with
      | none => simp [hres] at hc
      | some sdef =>
        have hrest := ih2.1 (fun x hx => hall x (by simp [hx]))
        simp [linksubs, hsubs, hres, hrest]
    · intro hex
      obtain ⟨x, hx, hxnone⟩ := hex
      rcases List.mem_cons.mp hx with hx | hx
      · subst hx
        exact ⟨[], by simp [linksubs, hsubs, hxnone]⟩
      · match hres : linkResolve subs c with
        | none => exact ⟨[], by simp [linksubs, hsubs, hres]⟩
        | some sdef =>
          obtain ⟨fx, hfx⟩ := ih2.2 ⟨x, hx, hxnone⟩
          exact ⟨(c.saddr, sdef.saddr) :: fx, by simp [linksubs, hsubs, hres, hfx]⟩

/-- Two definitions and two calls for the witness of claim C3. -/
def subsW : List SubEnt :=
  [{ sname := keyOf8 "sq".data, saddr := 40 },
   { sname := keyOf8 "main".data, saddr := 90 }]

/-- Pending calls for the witness of claim C3. -/
def callsW : List SubEnt :=
  [{ sname := keyOf8 "main".data, saddr := 10 },
   { sname := keyOf8 "sq".data, saddr := 22 }]

/-- A pending call that resolves to no definition. -/
def callsBadW : List SubEnt := callsW ++ [{ sname := keyOf8 "nosuch".data, saddr := 33 }]

/-- Witness for claim C3: on a concrete program the two pending calls are
patched in order with the matching entry addresses, and adding an
unresolvable call produces the link error. -/
theorem claim_C3_linker_witness :
    linksubs subsW callsW = some ([(10, 90), (22, 40)], false) ∧
    (∃ fx, linksubs subsW callsBadW = some (fx, true)) := by
  constructor
  · have h := (claim_C3_linker subsW callsW (Or.inl (by decide))).1 (by decide)
    rw [h]
    decide
  · exact (claim_C3_linker subsW callsBadW (Or.inl (by decide))).2
      ⟨{ sname := keyOf8 "nosuch".data, saddr := 33 }, by decide, by decide⟩

/-! Claim C10: run with cont == 0 clears variables and the return stack
before the first program line executes. -/

/-- Claim C10: every invocation of run with cont == 0 performs the full
re-initialisation first - the variable table becomes empty (so no previously
declared variable is visible to any lookup), the return stack pointer is
reset to its empty value, the skip flag is cleared, the counter starts at
zero - and only then does the line loop execute the first program line; the
program line list itself is untouched. -/
theorem claim_C10_run_reinit (fuel : Nat) (st : St) :
    (runInit st).vars = [] ∧
    (runInit st).rs = [] ∧
    (∀ key localIn, findintvar (runInit st) key localIn = none) ∧
    (runInit st).program = st.program ∧
    (runInit st).skipFlag = false ∧
    (runInit st).counter = 0 ∧
    runF fuel 0 st =
      (match runLoopF fuel (runInit st) with
       | .jump s => .jump s
       | .unsup => .unsup
       | .ok status st1 => .ok status (runFinish status st1)) := by
  refine ⟨rfl, rfl, ?_, rfl, rfl, rfl, rfl⟩
  intro key localIn
  simp [findintvar, runInit]

/-! Claim C1: state of the return stack and skip flag on resuming the REPL
after a long-jump. -/

/-- A state in which an unrecoverable error has just long-jumped to main:
the return stack is full (returnSP == 0, as after 21 nested if statements
overflowed it) and skipFlag is still set (the first of those ifs had a false
condition). -/
def stC1 : St := { initSt with rs := List.replicate 63 IFFRAME, skipFlag := true }

/-- Counterexample to claim C1 as stated: landing at the warm-restart point
of main and proceeding to read the next input line does NOT re-initialise the
return stack pointer (the stack still holds its 63 stale entries rather than
being empty) and does NOT clear skipFlag; both still hold their pre-jump
values at the moment parseline is entered on the next line. -/
theorem claim_C1_cex :
    (mainWarmResume stC1 "pr.dec 1".data).rs ≠ [] ∧
    (mainWarmResume stC1 "pr.dec 1".data).rs.length = RETSTACKSZ - 1 ∧
    (mainWarmResume stC1 "pr.dec 1".data).skipFlag = true := by
  refine ⟨by decide, by decide, by decide⟩

/-- Claim C1 as amended: the warm-restart point only re-initialises the
expression stacks and clears the compile flag; the return stack pointer and
skipFlag keep their pre-jump values while the next input line is read and
parsed, and they are re-initialised to RETSTACKSZ - 1 (empty) and cleared
only by the epilogue that runs after that immediate-mode line has been
processed. -/
theorem claim_C1_warm_restart (st st2 : St) (input : List Char) (status : Nat) :
    (mainWarmResume st input).rs = st.rs ∧
    (mainWarmResume st input).skipFlag = st.skipFlag ∧
    (mainWarmResume st input).compile = false ∧
    (mainWarmResume st input).opndStack = [] ∧
    (mainWarmResume st input).oprStack = [SENTINEL] ∧
    (immediatePost status st2).rs = [] ∧
    (immediatePost status st2).skipFlag = false := by
  refine ⟨?_, ?_, ?_, ?_, ?_, ?_, ?_⟩
  · simp [mainWarmResume, clearexprstacks, prout, printchar, apply_ite St.rs]
  · simp [mainWarmResume, clearexprstacks, prout, printchar, apply_ite St.skipFlag]
  · simp [mainWarmResume, clearexprstacks, prout, printchar, apply_ite St.compile]
  · simp [mainWarmResume, clearexprstacks, prout, printchar, apply_ite St.opndStack]
  · simp [mainWarmResume, clearexprstacks, prout, printchar, apply_ite St.oprStack]
  · unfold immediatePost
    split_ifs <;>
      simp_all [prout, printchar, error, apply_ite St.rs, apply_ite St.skipFlag]
  · unfold immediatePost
    split_ifs <;>
      simp_all [prout, printchar, error, apply_ite St.rs, apply_ite St.skipFlag]

/-! Claim C5: else / endif in interpret mode. -/

/-- Claim C5: in interpret mode, with the innermost open frame an IFFRAME of
status s (0: skipFlag was already set at the if; 1: the if set skipFlag;
2: condition true, skipFlag left clear): else sets skipFlag when s = 2,
clears it when s = 1, and leaves it unchanged when s = 0; endif clears
skipFlag exactly when s is nonzero and pops the three IFFRAME slots. -/
theorem claim_C5_else_endif (st : St) (s d : Int) (rest : List Int)
    (hc : st.compile = false)
    (hrs : st.rs = d :: s :: IFFRAME :: rest)
    (hs : s = 0 ∨ s = 1 ∨ s = 2) :
    doelse st = .ok 0 { st with skipFlag :=
      if s = 2 then true else if s = 1 then false else st.skipFlag } ∧
    doendif st = .ok 0 { st with
      skipFlag := if s ≠ 0 then false else st.skipFlag, rs := rest } := by
  rcases hs with h | h | h <;> subst h <;> cases st <;>
    simp_all [doelse, doendif, popN, pop_return, IFFRAME]

/-- A concrete state whose innermost frame is an IFFRAME of status 1. -/
def stC5 : St := { initSt with rs := [0, 1, IFFRAME, WHILEFRAME], skipFlag := true }

/-- Witness for claim C5: for the status-1 frame, else clears skipFlag and
endif clears it and pops the three slots. -/
theorem claim_C5_else_endif_witness :
    doelse stC5 = .ok 0 { stC5 with skipFlag := false } ∧
    doendif stC5 = .ok 0 { stC5 with skipFlag := false, rs := [WHILEFRAME] } := by
  have h := claim_C5_else_endif stC5 1 0 [WHILEFRAME] rfl rfl (by decide)
  exact ⟨h.1, h.2⟩

/-! Claim C8: division and modulo by zero. -/

/-- Claim C8: applying binary / or % during interpretation with a zero right
operand reports the div/0 error and returns the error flag, leaving the
operand stack a valid stack (the two operands consumed and no result pushed,
so nothing above the stack pointer is live); with the compile flag set, no
zero check happens and VM_DIV / VM_MOD is emitted unconditionally. -/
theorem claim_C8_div_by_zero (st : St) (tok : Nat) (ops : List Nat)
    (htok : tok = TOK_DIV ∨ tok = TOK_MOD)
    (hop : st.oprStack = tok :: ops) :
    (∀ a b rest, st.opndStack = a :: b :: rest → st.compile = false → a = 0 →
      pop_operator st = .ok 1 (error ERR_DIVZERO
        { st with oprStack := ops, opndStack := rest })) ∧
    (st.compile = true →
      pop_operator st = .ok 0
        (emit (if tok = TOK_DIV then .VM_DIV else .VM_MOD)
          { st with oprStack := ops })) := by
  rcases htok with h | h <;> subst h <;>
    constructor <;> (try intro a b rest hopnd) <;> intro hc <;> (try intro ha) <;>
      simp [pop_operator, pop_operator_stack, pop_operand_stack, hop,
        hc, ISUNARY, TOK_DIV, TOK_MOD, TOK_UNM, TOK_CARET, TOK_POW, TOK_MUL,
        *]

/-- A concrete interpret-mode state about to apply 6 / 0. -/
def stC8 : St :=
  { initSt with oprStack := [TOK_DIV, SENTINEL], opndStack := [0, 6] }

/-- A concrete compile-mode state about to emit the division opcode. -/
def stC8c : St :=
  { initSt with compile := true, oprStack := [TOK_MOD, SENTINEL] }

/-- Witness for claim C8: interpreting 6 / 0 reports div/0 with the operands
consumed, and compiling % emits VM_MOD unconditionally. -/
theorem claim_C8_div_by_zero_witness :
    pop_operator stC8 = .ok 1 (error ERR_DIVZERO
      { stC8 with oprStack := [SENTINEL], opndStack := [] }) ∧
    pop_operator stC8c = .ok 0 (emit .VM_MOD { stC8c with oprStack := [SENTINEL] }) := by
  constructor
  · exact (claim_C8_div_by_zero stC8 TOK_DIV [SENTINEL]
      (Or.inl rfl) rfl).1 0 6 [] rfl rfl rfl
  · exact (claim_C8_div_by_zero stC8c TOK_MOD [SENTINEL]
      (Or.inr rfl) rfl).2 rfl

/-! Claim C6: the dispatcher under skipFlag. -/

theorem eatspacePos_no {l : List Char} {i : Nat} (h : ch l i ≠ ' ') :
    eatspacePos l i = i := by
  unfold eatspacePos
  cases hn : l.length + 1 - i with
  | zero => rfl
  | succ n => simp [eatspacePosAux, h]

theorem eatSemisPos_no {l : List Char} {i : Nat} (h : ch l i ≠ ';') :
    eatSemisPos l i = some i := by
  unfold eatSemisPos
  cases hn : l.length + 1 - i with
  | zero => rfl
  | succ n => simp [eatSemisPosAux, h]

theorem skipToStmtEndAux_spec (n : Nat) (l : List Char) (i : Nat)
    (hfuel : l.length ≤ i + n) :
    (ch l (skipToStmtEndAux n l i) = nulc ∨
     ch l (skipToStmtEndAux n l i) = ';') ∧
    i ≤ skipToStmtEndAux n l i := by
  induction n generalizing i with
  | zero =>
    refine ⟨Or.inl ?_, Nat.le_refl i⟩
    simp only [skipToStmtEndAux]
    simp [ch, List.getD, List.getElem?_eq_none (by omega : l.length ≤ i)]
  | succ n ih =>
    unfold skipToStmtEndAux
    split
    · rename_i h
      exact ⟨h, Nat.le_refl i⟩
    · have := ih (i + 1) (by omega)
      exact ⟨this.1, by omega⟩

theorem skipToStmtEnd_spec (l : List Char) (i : Nat) :
    (ch l (skipToStmtEnd l i) = nulc ∨ ch l (skipToStmtEnd l i) = ';') ∧
    i ≤ skipToStmtEnd l i :=
  skipToStmtEndAux_spec _ l i (by omega)

/-- Claim C6: while skipFlag is set, a statement whose token is none of if,
else, endif, while, endwhile (including unrecognised statements) invokes no
handler: the dispatcher consumes it up to the next semicolon or the end of
the line, and the state is otherwise unchanged (the resulting state is the
input state with only the text cursor advanced). -/
theorem claim_C6_skip_dispatch (fuel : Nat) (st : St)
    (hskip : st.skipFlag = true)
    (hint : st.interrupted = false)
    (hsp : ch st.lnbuf st.txtPos ≠ ' ')
    (hsemi : ch st.lnbuf st.txtPos ≠ ';')
    (hnul : ch st.lnbuf st.txtPos ≠ nulc)
    (ht1 : matchstatement st ≠ TOK_IF)
    (ht2 : matchstatement st ≠ TOK_ELSE)
    (ht3 : matchstatement st ≠ TOK_ENDIF)
    (ht4 : matchstatement st ≠ TOK_WHILE)
    (ht5 : matchstatement st ≠ TOK_ENDW) :
    plStep fuel st = .cont { st with txtPos := skipToStmtEnd st.lnbuf st.txtPos } ∧
    (ch st.lnbuf (skipToStmtEnd st.lnbuf st.txtPos) = nulc ∨
     ch st.lnbuf (skipToStmtEnd st.lnbuf st.txtPos) = ';') ∧
    st.txtPos ≤ skipToStmtEnd st.lnbuf st.txtPos := by
  refine ⟨?_, (skipToStmtEnd_spec st.lnbuf st.txtPos).1,
    (skipToStmtEnd_spec st.lnbuf st.txtPos).2⟩
  have he : eatspace st = st := by
    show { st with txtPos := eatspacePos st.lnbuf st.txtPos } = st
    rw [eatspacePos_no hsp]
  unfold plStep
  rw [he]
  simp only [hint, Bool.false_eq_true, if_false, eatSemisPos_no hsemi]
  simp only [matchstatement] at ht1 ht2 ht3 ht4 ht5
  simp [hnul, hskip, matchstatement, ht1, ht2, ht3, ht4, ht5]

/-- A concrete skipping state: skipFlag set, cursor at a pr.dec statement. -/
def stC6 : St :=
  { initSt with lnbuf := "pr.dec 1 ; endif".data, skipFlag := true,
                rs := [0, 1, IFFRAME] }

/-- Witness for claim C6: the skipped pr.dec statement is eaten up to the
semicolon at position 9 with no other state change. -/
theorem claim_C6_skip_dispatch_witness :
    plStep 50 stC6 = .cont { stC6 with txtPos := 9 } ∧
    ch stC6.lnbuf 9 = ';' := by
  have h := (claim_C6_skip_dispatch 50 stC6 rfl rfl (by decide) (by decide)
    (by decide) (by decide) (by decide) (by decide) (by decide) (by decide)).1
  rw [h]
  constructor
  · have : skipToStmtEnd stC6.lnbuf stC6.txtPos = 9 := by decide
    rw [this]
  · decide

/-! Chaining lemmas for concrete parseline runs (one dispatcher sweep at a
time, through fully evaluated intermediate states). -/

theorem parselineF_cont {fuel : Nat} {st st2 : St}
    (h : plStep fuel st = .cont st2) :
    parselineF (fuel + 1) st = parselineF fuel st2 := by
  conv_lhs => rw [parselineF]
  rw [h]

theorem parselineF_ret {fuel : Nat} {st st2 : St} {c : Nat}
    (h : plStep fuel st = .ret c st2) :
    parselineF (fuel + 1) st = .ok c st2 := by
  conv_lhs => rw [parselineF]
  rw [h]


/-! Stepping stones for concrete dispatcher sweeps: the prelude of a parseline
sweep normalised into a literal state, and the argument and handler stages of
the statement forms exercised by the concrete runs below. -/

/-- The cursor and rtPC bookkeeping parseline performs between matching a
keyword and running the argument handling. -/
def plPost (st : St) (tok : Nat) : St :=
  let st2 := eatspace { st with txtPos := st.txtPos + stnameLen tok }
  { st2 with rtPCBeforeEval := st2.rtPC }

set_option maxRecDepth 4000 in
/-- A parseline sweep that is not interrupted, not at a space, semicolon or
line end, not skipping, and matches a known statement keyword reduces to its
argument handling on the bookkept state. -/
theorem plStep_dispatch (fuel : Nat) (st : St) (tok : Nat)
    (hskip : st.skipFlag = false)
    (hint : st.interrupted = false)
    (hsp : ch st.lnbuf st.txtPos ≠ ' ')
    (hsemi : ch st.lnbuf st.txtPos ≠ ';')
    (hnul : ch st.lnbuf st.txtPos ≠ nulc)
    (htok : matchstatement st = tok)
    (hill : tok ≠ ILLEGAL) :
    plStep fuel st = plArgs fuel tok st.txtPos (plPost st tok) := by
  obtain ⟨l, tp, rb, vs, vli, na, cl, rrs, sf, cnt, cur, prg, outp, ers, rr,
    cp, cps, oc, ctl, opn, opr, em, pc, sp, fp, pbe, edm, intr⟩ := st
  dsimp only at hskip hint hsp hsemi hnul htok
  subst hskip hint
  have he : eatspacePos l tp = tp := eatspacePos_no hsp
  unfold plStep
  simp only [eatspace, he, eatSemisPos_no hsemi]
  rw [htok]
  simp [hnul, hill, plPost, eatspace]

/-- The argument stage of a CUSTOM statement invokes its handler directly. -/
theorem plArgs_custom (fuel tok startPos : Nat) (st : St)
    (hc : stypeOf tok = StType.CUSTOM) :
    plArgs fuel tok startPos st = plExec fuel tok 0 0 startPos st := by
  unfold plArgs
  rw [hc]

/-- The handler of the word declaration statement. -/
theorem plExec_word (fuel : Nat) (arg arg2 : Int) (startPos : Nat) (st : St) :
    plExec fuel TOK_WORD arg arg2 startPos st =
      (match assignorcreateF fuel WORD_MODE st with
       | Res.jump s => StepR.jmp s
       | Res.unsup => StepR.unsup
       | Res.ok code st1 =>
         if code ≠ 0 then StepR.ret 2 st1 else StepR.cont st1) := by
  unfold plExec
  norm_num [TOK_COMM, TOK_QUIT, TOK_PRDEC, TOK_PRDEC_S, TOK_PRHEX, TOK_PRMSG, TOK_PRNL, TOK_PRSTR, TOK_PRCH, TOK_KBDCH, TOK_KBDLN, TOK_CLEAR, TOK_VARS, TOK_WORD, WORD_MODE, BYTE_MODE]

/-- The handler of the for statement. -/
theorem plExec_for (fuel : Nat) (arg arg2 : Int) (startPos : Nat) (st : St) :
    plExec fuel TOK_FOR arg arg2 startPos st =
      (match assignorcreateF fuel FOR_MODE st with
       | Res.jump s => StepR.jmp s
       | Res.unsup => StepR.unsup
       | Res.ok code st1 =>
         if code ≠ 0 then StepR.ret 2 st1 else StepR.cont st1) := by
  unfold plExec
  norm_num [TOK_COMM, TOK_QUIT, TOK_PRDEC, TOK_PRDEC_S, TOK_PRHEX, TOK_PRMSG, TOK_PRNL, TOK_PRSTR, TOK_PRCH, TOK_KBDCH, TOK_KBDLN, TOK_CLEAR, TOK_VARS, TOK_WORD, TOK_BYTE, TOK_CONST, TOK_RUN, TOK_COMPILE, TOK_NEW, TOK_SUBR, TOK_ENDSUBR, TOK_CALL, TOK_RET, TOK_IF, TOK_ELSE, TOK_ENDIF, TOK_FOR]

/-- The glue of assignorcreate for a for statement over a plain (unscripted)
variable name, reduced to its initial-expression evaluation followed by the
assignment switch. -/
theorem aocF_for (fuel : Nat) (st0 st3 : St) (lex : List Char) (p1 : Nat)
    (halpha : isalphach (ch st0.lnbuf st0.txtPos) = true)
    (hmunch : munchName st0.lnbuf st0.txtPos = (lex, p1))
    (hnb : ch st0.lnbuf p1 ≠ '[')
    (hcompile : st0.compile = false)
    (hexp : expect '=' (eatspace { st0 with txtPos := p1, compile := false }) =
      (0, st3)) :
    assignorcreateF fuel FOR_MODE st0 =
      (match evalF fuel 0 (eatspace st3) with
       | Res.jump s => Res.jump s
       | Res.unsup => Res.unsup
       | Res.ok (code, j) stJ =>
         if code = 1 then Res.ok 1 { stJ with compile := true }
         else aocSwitch fuel FOR_MODE (keyOf lex) 0 0 j
           { stJ with compile := false }) := by
  unfold assignorcreateF
  rw [hcompile]
  simp only [halpha, hmunch, Bool.not_eq_true, Bool.true_eq_false, if_false,
    reduceCtorEq, ite_false, ite_true, hnb, if_neg, hexp,
    (show ¬(FOR_MODE = WORD_MODE ∨ FOR_MODE = BYTE_MODE) from by decide),
    (show ¬(FOR_MODE = CONST_MODE) from by decide),
    (show (FOR_MODE ≠ FOR_MODE) = False from by simp),
    (show ((if (0 : Nat) = 2 then 1 else 0) = 0 ∨ FOR_MODE = LET_MODE ∨
      FOR_MODE = FOR_MODE) = True from by simp)]
  simp only [not_true, if_false, true_or, if_true]
  cases hE : evalF fuel 0 (eatspace st3) with
  | jump s => rfl
  | unsup => rfl
  | ok p stJ =>
    obtain ⟨code, j⟩ := p
    by_cases hc : code = 1 <;> simp [hc]

/-! Claim C2: array declarations with nonpositive size. -/

/-- The line of the claim C2 counterexample: a word array of declared size
zero with an empty list initialiser. -/
def lineC2 : List Char := "word a[0] = ".data ++ [obraceC, cbraceC]

/-- The immediate-mode state holding the claim C2 line. -/
def stC2 : St := { initSt with lnbuf := lineC2 }

/-- The descriptor the claim C2 line actually creates: a one-element word
array (typeByte 17 = array bit + TYPE_WORD). -/
def c2aVar : Var :=
  { vname := keyOf "a".data, typeByte := 17, addr := 1000, val := 0,
    bodyAddr := 1002, body := [0], asize := 1 }

/-- The state after the declaration statement of the claim C2 line. -/
def c2mid : St :=
  { initSt with
    lnbuf := lineC2
    txtPos := 14
    nextAddr := 1006
    vars := [c2aVar]
    varslocalIdx := some 0 }

/-- The state of the claim C2 run after the word keyword is consumed. -/
def c2pre : St :=
  { initSt with
    lnbuf := lineC2
    txtPos := 5 }

theorem c2disp : plStep 99 stC2 = plArgs 99 TOK_WORD 0 c2pre := by
  rw [plStep_dispatch 99 stC2 TOK_WORD rfl rfl (by decide) (by decide)
    (by decide) (by decide) (by decide)]
  rw [show plPost stC2 TOK_WORD = c2pre from by decide]
  rfl

theorem c2create : assignorcreateF 99 WORD_MODE c2pre = .ok 0 c2mid := by
  decide

theorem c2step1 : plStep 99 stC2 = .cont c2mid := by
  rw [c2disp, plArgs_custom 99 TOK_WORD 0 c2pre (by decide), plExec_word,
    c2create]
  rfl

theorem c2step2 : plStep 98 c2mid = .ret 0 c2mid := rfl

/-- Counterexample to claim C2 as stated: declaring an array of size exactly
zero does NOT report bad dim - the declaration succeeds with return code 0,
no error is recorded, and a descriptor IS added to the variable list (with
element count one, because assignorcreate bumps a zero size to one before
createintvar performs its size check). -/
theorem claim_C2_size_zero_cex :
    parselineF 100 stC2 = .ok 0 c2mid ∧
    c2mid.errs = [] ∧
    c2mid.vars.length = 1 ∧
    c2mid.vars.map Var.asize = [1] := by
  refine ⟨?_, rfl, rfl, rfl⟩
  calc parselineF 100 stC2 = parselineF 99 c2mid := parselineF_cont c2step1
    _ = .ok 0 c2mid := parselineF_ret c2step2

/-- Claim C2 as amended: a declaration whose size expression is negative
(any value below one that reaches createintvar) reports the bad dim error,
returns the error flag and adds no descriptor; a size of exactly zero never
reaches the check - assignorcreate silently bumps it to one, so the
declaration behaves exactly like a size-one declaration. -/
theorem claim_C2_bad_dim (st : St) (fuel : Nat) (key : List Char)
    (ty isarray : Nat) (sz value bodyptr : Int)
    (hfresh : findintvar st key true = none)
    (hsz : sz < 1) :
    (createintvarF fuel key ty isarray sz value bodyptr st =
        .ok 1 (error ERR_DIM st) ∧
      (error ERR_DIM st).vars = st.vars) ∧
    (∀ mode j, mode = WORD_MODE ∨ mode = BYTE_MODE ∨ mode = CONST_MODE →
      aocSwitch fuel mode key isarray 0 j st =
        aocSwitch fuel mode key isarray 1 j st) := by
  constructor
  · constructor
    · unfold createintvarF
      rw [hfresh]
      simp [hsz]
    · simp [error]
  · intro mode j hmode
    rcases hmode with h | h | h <;> subst h <;> simp [aocSwitch]

/-- Witness for claim C2 (amended): a concrete size of minus one reports bad
dim with the variable table untouched, and size zero behaves as size one. -/
theorem claim_C2_bad_dim_witness :
    (createintvarF 50 (keyOf "a".data) TYPE_WORD 1 (-1) 0 0 initSt =
        .ok 1 (error ERR_DIM initSt) ∧
      (error ERR_DIM initSt).vars = initSt.vars) ∧
    aocSwitch 50 WORD_MODE (keyOf "a".data) 1 0 0 initSt =
      aocSwitch 50 WORD_MODE (keyOf "a".data) 1 1 0 initSt := by
  have h := claim_C2_bad_dim initSt 50 (keyOf "a".data) TYPE_WORD 1 (-1) 0 0
    (by decide) (by decide)
  exact ⟨h.1, h.2 WORD_MODE 0 (Or.inl rfl)⟩

/-! Claim C9: the end-to-end for-loop line. -/

/-- The program line of claim C9. -/
def lineC9 : List Char :=
  "for i = 1 : 4 ; pr.dec i ; pr.ch ".data ++ [qc, ' ', qc] ++
    " ; endfor ; pr.nl".data

/-- The word variable i with value iv. -/
def c9var (iv : Int) : Var :=
  { vname := keyOf "i".data, typeByte := TYPE_WORD, addr := 777, val := iv,
    bodyAddr := 0, body := [], asize := 0 }

/-- The immediate-mode state holding the claim C9 line with an existing word
variable i of prior value v. -/
def stC9 (v : Int) : St :=
  { initSt with lnbuf := lineC9, vars := [c9var v], varslocalIdx := some 0 }

/-- The immediate-mode state holding the claim C9 line with no variables. -/
def stC9NoVar : St := { initSt with lnbuf := lineC9 }

/-- State 1 of the claim C9 run. -/
def c9s1 : St :=
  { initSt with
    lnbuf := lineC9
    txtPos := 14
    vars := [c9var 1]
    varslocalIdx := some 0
    rs := [777, 4, 14, -1, FORFRAME_W]
    output := []
    readbuf := [] }

/-- State 2 of the claim C9 run. -/
def c9s2 : St :=
  { initSt with
    lnbuf := lineC9
    txtPos := 25
    vars := [c9var 1]
    varslocalIdx := some 0
    rs := [777, 4, 14, -1, FORFRAME_W]
    output := "1".data
    readbuf := "i".data }

/-- State 3 of the claim C9 run. -/
def c9s3 : St :=
  { initSt with
    lnbuf := lineC9
    txtPos := 37
    vars := [c9var 1]
    varslocalIdx := some 0
    rs := [777, 4, 14, -1, FORFRAME_W]
    output := "1 ".data
    readbuf := "i".data }

/-- State 4 of the claim C9 run. -/
def c9s4 : St :=
  { initSt with
    lnbuf := lineC9
    txtPos := 14
    vars := [c9var 2]
    varslocalIdx := some 0
    rs := [777, 4, 14, -1, FORFRAME_W]
    output := "1 ".data
    readbuf := "i".data }

/-- State 5 of the claim C9 run. -/
def c9s5 : St :=
  { initSt with
    lnbuf := lineC9
    txtPos := 25
    vars := [c9var 2]
    varslocalIdx := some 0
    rs := [777, 4, 14, -1, FORFRAME_W]
    output := "1 2".data
    readbuf := "i".data }

/-- State 6 of the claim C9 run. -/
def c9s6 : St :=
  { initSt with
    lnbuf := lineC9
    txtPos := 37
    vars := [c9var 2]
    varslocalIdx := some 0
    rs := [777, 4, 14, -1, FORFRAME_W]
    output := "1 2 ".data
    readbuf := "i".data }

/-- State 7 of the claim C9 run. -/
def c9s7 : St :=
  { initSt with
    lnbuf := lineC9
    txtPos := 14
    vars := [c9var 3]
    varslocalIdx := some 0
    rs := [777, 4, 14, -1, FORFRAME_W]
    output := "1 2 ".data
    readbuf := "i".data }

/-- State 8 of the claim C9 run. -/
def c9s8 : St :=
  { initSt with
    lnbuf := lineC9
    txtPos := 25
    vars := [c9var 3]
    varslocalIdx := some 0
    rs := [777, 4, 14, -1, FORFRAME_W]
    output := "1 2 3".data
    readbuf := "i".data }

/-- State 9 of the claim C9 run. -/
def c9s9 : St :=
  { initSt with
    lnbuf := lineC9
    txtPos := 37
    vars := [c9var 3]
    varslocalIdx := some 0
    rs := [777, 4, 14, -1, FORFRAME_W]
    output := "1 2 3 ".data
    readbuf := "i".data }

/-- State 10 of the claim C9 run. -/
def c9s10 : St :=
  { initSt with
    lnbuf := lineC9
    txtPos := 14
    vars := [c9var 4]
    varslocalIdx := some 0
    rs := [777, 4, 14, -1, FORFRAME_W]
    output := "1 2 3 ".data
    readbuf := "i".data }

/-- State 11 of the claim C9 run. -/
def c9s11 : St :=
  { initSt with
    lnbuf := lineC9
    txtPos := 25
    vars := [c9var 4]
    varslocalIdx := some 0
    rs := [777, 4, 14, -1, FORFRAME_W]
    output := "1 2 3 4".data
    readbuf := "i".data }

/-- State 12 of the claim C9 run. -/
def c9s12 : St :=
  { initSt with
    lnbuf := lineC9
    txtPos := 37
    vars := [c9var 4]
    varslocalIdx := some 0
    rs := [777, 4, 14, -1, FORFRAME_W]
    output := "1 2 3 4 ".data
    readbuf := "i".data }

/-- State 13 of the claim C9 run. -/
def c9s13 : St :=
  { initSt with
    lnbuf := lineC9
    txtPos := 46
    vars := [c9var 4]
    varslocalIdx := some 0
    rs := []
    output := "1 2 3 4 ".data
    readbuf := "i".data }

/-- State 14 of the claim C9 run. -/
def c9s14 : St :=
  { initSt with
    lnbuf := lineC9
    txtPos := 53
    vars := [c9var 4]
    varslocalIdx := some 0
    rs := []
    output := "1 2 3 4 \n".data
    readbuf := "i".data }

/-- The claim C9 run state after the for keyword, prior value of i is 7. -/
def c9pre7 : St :=
  { initSt with
    lnbuf := lineC9
    txtPos := 4
    vars := [c9var 7]
    varslocalIdx := some 0 }

/-- The claim C9 run state after the for keyword, prior value of i is -3. -/
def c9preM : St :=
  { initSt with
    lnbuf := lineC9
    txtPos := 4
    vars := [c9var (-3)]
    varslocalIdx := some 0 }

/-- The claim C9 run state at the loop start expression, prior value 7. -/
def c9m7 : St :=
  { initSt with
    lnbuf := lineC9
    txtPos := 8
    vars := [c9var 7]
    varslocalIdx := some 0 }

/-- The claim C9 run state at the loop start expression, prior value -3. -/
def c9mM : St :=
  { initSt with
    lnbuf := lineC9
    txtPos := 8
    vars := [c9var (-3)]
    varslocalIdx := some 0 }

/-- The claim C9 run state after the loop start expression, prior value 7. -/
def c9e7 : St :=
  { initSt with
    lnbuf := lineC9
    txtPos := 10
    vars := [c9var 7]
    varslocalIdx := some 0 }

/-- The claim C9 run state after the loop start expression, prior value -3. -/
def c9eM : St :=
  { initSt with
    lnbuf := lineC9
    txtPos := 10
    vars := [c9var (-3)]
    varslocalIdx := some 0 }

theorem c9create7 : assignorcreateF 99 FOR_MODE c9pre7 = .ok 0 c9s1 := by
  have hev : evalF 99 0 c9m7 = Res.ok (0, 1) c9e7 := by decide
  rw [aocF_for 99 c9pre7 c9m7 "i".data 5 (by decide) (by decide) (by decide)
    rfl (by decide)]
  rw [show eatspace c9m7 = c9m7 from by decide, hev]
  decide

theorem c9createM : assignorcreateF 99 FOR_MODE c9preM = .ok 0 c9s1 := by
  have hev : evalF 99 0 c9mM = Res.ok (0, 1) c9eM := by decide
  rw [aocF_for 99 c9preM c9mM "i".data 5 (by decide) (by decide) (by decide)
    rfl (by decide)]
  rw [show eatspace c9mM = c9mM from by decide, hev]
  decide

theorem c9disp7 : plStep 99 (stC9 7) = plArgs 99 TOK_FOR 0 c9pre7 := by
  rw [plStep_dispatch 99 (stC9 7) TOK_FOR rfl rfl (by decide) (by decide)
    (by decide) (by decide) (by decide)]
  rw [show plPost (stC9 7) TOK_FOR = c9pre7 from by decide]
  rfl

theorem c9dispM : plStep 99 (stC9 (-3)) = plArgs 99 TOK_FOR 0 c9preM := by
  rw [plStep_dispatch 99 (stC9 (-3)) TOK_FOR rfl rfl (by decide) (by decide)
    (by decide) (by decide) (by decide)]
  rw [show plPost (stC9 (-3)) TOK_FOR = c9preM from by decide]
  rfl

theorem c9step1 : plStep 99 (stC9 7) = .cont c9s1 := by
  rw [c9disp7, plArgs_custom 99 TOK_FOR 0 c9pre7 (by decide), plExec_for,
    c9create7]
  rfl

theorem c9step1M : plStep 99 (stC9 (-3)) = .cont c9s1 := by
  rw [c9dispM, plArgs_custom 99 TOK_FOR 0 c9preM (by decide), plExec_for,
    c9createM]
  rfl

theorem c9step2 : plStep 98 c9s1 = .cont c9s2 := rfl

theorem c9step3 : plStep 97 c9s2 = .cont c9s3 := rfl

theorem c9step4 : plStep 96 c9s3 = .cont c9s4 := rfl

theorem c9step5 : plStep 95 c9s4 = .cont c9s5 := rfl

theorem c9step6 : plStep 94 c9s5 = .cont c9s6 := rfl

theorem c9step7 : plStep 93 c9s6 = .cont c9s7 := rfl

theorem c9step8 : plStep 92 c9s7 = .cont c9s8 := rfl

theorem c9step9 : plStep 91 c9s8 = .cont c9s9 := rfl

theorem c9step10 : plStep 90 c9s9 = .cont c9s10 := rfl

theorem c9step11 : plStep 89 c9s10 = .cont c9s11 := rfl

theorem c9step12 : plStep 88 c9s11 = .cont c9s12 := rfl

theorem c9step13 : plStep 87 c9s12 = .cont c9s13 := rfl

theorem c9step14 : plStep 86 c9s13 = .cont c9s14 := rfl

theorem c9step15 : plStep 85 c9s14 = .ret 0 c9s14 := rfl

/-- The final state of the claim C9 run. -/
def c9fin : St := c9s14

/-- The state in which the claim C9 line stops when no variable i exists. -/
def c9cexSt : St :=
  { initSt with
    lnbuf := lineC9
    txtPos := 10
    output := "?expect var".data
    errs := [ERR_VAR] }

/-- The no-variable claim C9 run state after the for keyword. -/
def c9preN : St :=
  { initSt with
    lnbuf := lineC9
    txtPos := 4 }

/-- The no-variable claim C9 run state at the loop start expression. -/
def c9mN : St :=
  { initSt with
    lnbuf := lineC9
    txtPos := 8 }

/-- The no-variable claim C9 run state after the loop start expression. -/
def c9eN : St :=
  { initSt with
    lnbuf := lineC9
    txtPos := 10 }

theorem c9createN : assignorcreateF 99 FOR_MODE c9preN = .ok 1 c9cexSt := by
  have hev : evalF 99 0 c9mN = Res.ok (0, 1) c9eN := by decide
  rw [aocF_for 99 c9preN c9mN "i".data 5 (by decide) (by decide) (by decide)
    rfl (by decide)]
  rw [show eatspace c9mN = c9mN from by decide, hev]
  decide

theorem c9dispN : plStep 99 stC9NoVar = plArgs 99 TOK_FOR 0 c9preN := by
  rw [plStep_dispatch 99 stC9NoVar TOK_FOR rfl rfl (by decide) (by decide)
    (by decide) (by decide) (by decide)]
  rw [show plPost stC9NoVar TOK_FOR = c9preN from by decide]
  rfl

theorem c9cexStep : plStep 99 stC9NoVar = .ret 2 c9cexSt := by
  rw [c9dispN, plArgs_custom 99 TOK_FOR 0 c9preN (by decide), plExec_for,
    c9createN]
  rfl

/-- Counterexample to claim C9 as stated: with NO prior variable i the line
does not print 1 2 3 4 and a newline - the for statement does not create its
loop variable, setintvar cannot find i, and the line stops with the expect
var error and return code 2. -/
theorem claim_C9_cex :
    parselineF 100 stC9NoVar = .ok 2 c9cexSt ∧
    c9cexSt.errs = [ERR_VAR] ∧
    c9cexSt.output ≠ "1 2 3 4 \n".data := by
  exact ⟨parselineF_ret c9cexStep, rfl, by decide⟩

theorem c9tail : parselineF 99 c9s1 = .ok 0 c9fin := by
  calc parselineF 99 c9s1
      = parselineF 98 c9s2 := parselineF_cont c9step2
    _ = parselineF 97 c9s3 := parselineF_cont c9step3
    _ = parselineF 96 c9s4 := parselineF_cont c9step4
    _ = parselineF 95 c9s5 := parselineF_cont c9step5
    _ = parselineF 94 c9s6 := parselineF_cont c9step6
    _ = parselineF 93 c9s7 := parselineF_cont c9step7
    _ = parselineF 92 c9s8 := parselineF_cont c9step8
    _ = parselineF 91 c9s9 := parselineF_cont c9step9
    _ = parselineF 90 c9s10 := parselineF_cont c9step10
    _ = parselineF 89 c9s11 := parselineF_cont c9step11
    _ = parselineF 88 c9s12 := parselineF_cont c9step12
    _ = parselineF 87 c9s13 := parselineF_cont c9step13
    _ = parselineF 86 c9s14 := parselineF_cont c9step14
    _ = .ok 0 c9fin := parselineF_ret c9step15

/-- Claim C9 as amended: when i is an existing (non-const, scalar) word
variable, interpreting the line prints exactly the characters 1 2 3 4
(space separated, with a trailing space) followed by one newline,
independently of the prior value of i (shown for the representative prior
values 7 and -3): the loop body runs for i = 1, 2, 3, 4 and the final
endfor unwinds its FORFRAME when the loop variable reaches the stored
limit, leaving the return stack empty, with no error reported. -/
theorem claim_C9_for_loop :
    (parselineF 100 (stC9 7) = .ok 0 c9fin ∧
     parselineF 100 (stC9 (-3)) = .ok 0 c9fin) ∧
    c9fin.output = "1 2 3 4 \n".data ∧
    c9fin.rs = [] ∧
    c9fin.errs = [] ∧
    c9fin.vars.map Var.val = [4] := by
  refine ⟨⟨?_, ?_⟩, rfl, rfl, rfl, rfl⟩
  · calc parselineF 100 (stC9 7)
        = parselineF 99 c9s1 := parselineF_cont c9step1
      _ = .ok 0 c9fin := c9tail
  · calc parselineF 100 (stC9 (-3))
        = parselineF 99 c9s1 := parselineF_cont c9step1M
      _ = .ok 0 c9fin := c9tail

/-! Claim C4: the interpreted return statement. -/

theorem indexOf?_prefix {a : Int} {pre post : List Int} (h : a ∉ pre) :
    (pre ++ a :: post).indexOf? a = some pre.length := by
  induction pre with
  | nil => simp [List.indexOf?, List.findIdx?_cons]
  | cons b bs ih =>
    simp only [List.mem_cons, not_or] at h
    simp [List.indexOf?, List.findIdx?_cons, beq_iff_eq, Ne.symm h.1]
    have := ih h.2
    simp [List.indexOf?] at this
    simp [this]

theorem indexOf?_none {a : Int} {xs : List Int} (h : a ∉ xs) :
    xs.indexOf? a = none := by
  induction xs with
  | nil => rfl
  | cons b bs ih =>
    simp only [List.mem_cons, not_or] at h
    simp [List.indexOf?, List.findIdx?_cons, beq_iff_eq, Ne.symm h.1]
    simpa [List.indexOf?] using ih h.2

theorem getD_append_len {a d : Int} (l1 l2 : List Int) :
    (l1 ++ a :: l2).getD l1.length d = a := by
  induction l1 with
  | nil => rfl
  | cons b bs ih => simpa using ih

theorem get?_append_len (a : Var) (l1 l2 : List Var) :
    (l1 ++ a :: l2).get? l1.length = some a := by
  induction l1 with
  | nil => rfl
  | cons b bs ih => simpa using ih

set_option maxHeartbeats 1000000 in
/-- Claim C4: for an interpreted return statement with a CALLFRAME on the
return stack, doreturn discards the newer in-callee frames, stores the value
in the return register, tears the local variable frame down to the caller's,
and resumes at the saved line and text position (immediate mode for line -1);
with no CALLFRAME anywhere on the return stack it reports the stack error. -/
theorem claim_C4_return (retv : Int) (st : St) (inner : List Int) (t l : Int)
    (rest : List Int) (gvars locs : List Var) (marker : Var)
    (hcompile : st.compile = false)
    (hrs : st.rs = inner ++ t :: l :: CALLFRAME :: rest)
    (hinner : CALLFRAME ∉ inner)
    (ht : t ≠ CALLFRAME) (hl : l ≠ CALLFRAME)
    (hvars : st.vars = gvars ++ marker :: locs)
    (hvli : st.varslocalIdx = some gvars.length)
    (hmk : marker.vname.headD nulc = '-') :
    (l = -1 →
      doreturn retv st = .ok 0
        { st with
          rs := rest
          retregister := retv
          vars := gvars
          calllevel := st.calllevel - 1
          varslocalIdx := lastMarkerIdx gvars
          counter := -1
          current := none
          txtPos := t.toNat }) ∧
    (1 ≤ l + 1 → (l + 1).toNat ≤ st.program.length →
      doreturn retv st = .ok 0
        { st with
          rs := rest
          retregister := retv
          vars := gvars
          calllevel := st.calllevel - 1
          varslocalIdx := lastMarkerIdx gvars
          counter := l
          current := some ((l + 1).toNat - 1)
          lnbuf := st.program.getD ((l + 1).toNat - 1) []
          txtPos := t.toNat }) ∧
    (∀ st2 : St, st2.compile = false → CALLFRAME ∉ st2.rs →
      doreturn retv st2 = .ok 1 (error ERR_STACK st2)) := by
  have hsplit : st.rs = (inner ++ [t, l]) ++ CALLFRAME :: rest := by
    rw [hrs]; simp
  have hpre : CALLFRAME ∉ inner ++ [t, l] := by
    simp [List.mem_append, hinner, Ne.symm ht, Ne.symm hl]
  have hidx : st.rs.indexOf? CALLFRAME = some (inner.length + 2) := by
    rw [hsplit, indexOf?_prefix hpre]; simp
  have hgl : st.rs.getD (inner.length + 2 - 1) 0 = l := by
    have h2 : st.rs = (inner ++ [t]) ++ l :: (CALLFRAME :: rest) := by
      rw [hrs]; simp
    have h3 : inner.length + 2 - 1 = (inner ++ [t]).length := by simp
    rw [h2, h3, getD_append_len]
  have hgt : st.rs.getD (inner.length + 2 - 2) 0 = t := by
    have h3 : inner.length + 2 - 2 = inner.length := by simp
    rw [hrs, h3, getD_append_len]
  have hdrop : st.rs.drop (inner.length + 2 + 1) = rest := by
    have h2 : st.rs = (inner ++ [t, l, CALLFRAME]) ++ rest := by
      rw [hrs]; simp
    have h3 : inner.length + 2 + 1 = (inner ++ [t, l, CALLFRAME]).length := by
      simp
    rw [h2, h3, List.drop_left]
  have hget : st.vars.get? gvars.length = some marker := by
    rw [hvars, get?_append_len]
  have htake : st.vars.take gvars.length = gvars := by
    rw [hvars, List.take_left]
  have hcommon : doreturn retv st =
      (match backtotop l t
          { st with
            rs := rest
            retregister := retv
            vars := gvars
            calllevel := st.calllevel - 1
            varslocalIdx := lastMarkerIdx gvars } with
       | none => Res.unsup
       | some st3 => Res.ok 0 st3) := by
    unfold doreturn
    simp only [hcompile, Bool.false_eq_true, if_false, hidx]
    rw [if_neg (by omega)]
    rw [hgl, hgt, hdrop]
    unfold vars_deletecallframe
    simp only [hvli, hget, htake, hmk]
    simp
  refine ⟨?_, ?_, ?_⟩
  · intro hl1
    subst hl1
    rw [hcommon]
    unfold backtotop
    simp
  · intro h1 h2
    rw [hcommon]
    unfold backtotop
    rw [if_neg (by omega)]
    unfold findline
    simp only [h1, h2, and_true, true_and, if_pos, if_true]
    simp [Int.add_sub_cancel]
  · intro st2 h2c h2m
    unfold doreturn
    simp only [h2c, Bool.false_eq_true, if_false, indexOf?_none h2m]

/-- A global variable of the claim C4 witness. -/
def c4gv : Var :=
  { vname := keyOf "g".data, typeByte := TYPE_WORD, addr := 500, val := 11,
    bodyAddr := 0, body := [], asize := 0 }

/-- The call-frame marker entry of the claim C4 witness. -/
def c4marker : Var :=
  { vname := ['-'], typeByte := 0, addr := 0, val := 0,
    bodyAddr := 0, body := [], asize := 0 }

/-- A callee-local variable of the claim C4 witness. -/
def c4lv : Var :=
  { vname := keyOf "x".data, typeByte := TYPE_WORD, addr := 600, val := 22,
    bodyAddr := 0, body := [], asize := 0 }

/-- The claim C4 witness state: an open IFFRAME inside the callee above the
CALLFRAME (text position 5, caller line -1), one global, the frame marker and
one local. -/
def stC4 : St :=
  { initSt with
    rs := [0, 1, IFFRAME, 5, -1, CALLFRAME, 9]
    vars := [c4gv, c4marker, c4lv]
    varslocalIdx := some 1
    calllevel := 2 }

/-- A state with no CALLFRAME on the return stack. -/
def stC4b : St := { initSt with rs := [1, 2, 3] }

/-- Witness for claim C4: the concrete return unwinds the IFFRAME, stores 42
in the return register, drops the local frame and returns to immediate mode
at text position 5; without a CALLFRAME the stack error is reported. -/
theorem claim_C4_return_witness :
    doreturn 42 stC4 = .ok 0
      { stC4 with
        rs := [9]
        retregister := 42
        vars := [c4gv]
        calllevel := 1
        varslocalIdx := none
        counter := -1
        current := none
        txtPos := 5 } ∧
    doreturn 0 stC4b = .ok 1 (error ERR_STACK stC4b) := by
  constructor
  · exact (claim_C4_return 42 stC4 [0, 1, IFFRAME] 5 (-1) [9] [c4gv] [c4lv]
      c4marker rfl rfl (by decide) (by decide) (by decide) rfl rfl
      (by decide)).1 rfl
  · exact (claim_C4_return 0 stC4 [0, 1, IFFRAME] 5 (-1) [9] [c4gv] [c4lv]
      c4marker rfl rfl (by decide) (by decide) (by decide) rfl rfl
      (by decide)).2.2 stC4b rfl (by decide)

end EightBall
